import Mathlib

set_option maxRecDepth 100000

/-!
# Verification of the neobanka2 order-matching and settlement core

This file gives a shallow embedding, in Lean 4, of the parts of the
repository that the checked claims are about:

* `APIHelper.validate_order_prerequisites`, `APIHelper.get_token_address`,
  `APIHelper.settle_trades_if_any` and its same-chain and cross-chain wrappers
  (`orderbook/helper/api_helper.py`);
* `APIService.register_order` and `APIService.register_order_cross`
  (`orderbook/helper/api_service.py`);
* the read operations of `SettlementClientSame`
  (`orderbook/src/trade_settlement_client.py`).

External chains are modelled by an explicit environment (`ChainEnv`) that
maps each read or submission the code performs to the outcome the chain
would return; a raised RPC error is an `Option`/`Except` failure value.
Python floats appearing in amounts and prices are modelled as rationals;
the claims under study do not depend on binary rounding, only on the
arithmetic shape of the computations.  `hashlib.sha256` is embedded as a
full executable SHA-256 over the UTF-8 bytes of the input string.
-/

/-- Python `str.lower()` on the ASCII strings in play (kernel-reducible
model of case lowering). -/
def String.pyLower (s : String) : String := ⟨s.data.map Char.toLower⟩

/-- Python `str.upper()` on the ASCII strings in play. -/
def String.pyUpper (s : String) : String := ⟨s.data.map Char.toUpper⟩

/-- Python `str.startswith(pre)`. -/
def String.pyStartsWith (s pre : String) : Bool := pre.data.isPrefixOf s.data

/-- Python slicing `s[:n]` on the ASCII strings in play. -/
def String.pyTake (s : String) (n : Nat) : String := ⟨s.data.take n⟩

namespace Neobanka

/-! ## SHA-256 (hashlib.sha256(...).hexdigest()) -/

/-- Truncate to a 32-bit word. -/
def mod32 (x : Nat) : Nat := x % 4294967296

/-- Right rotation of a 32-bit word. -/
def rotr (n x : Nat) : Nat := mod32 ((x >>> n) ||| (x <<< (32 - n)))

/-- Right shift of a 32-bit word. -/
def shr (n x : Nat) : Nat := x >>> n

/-- SHA-256 round constants (FIPS 180-4, written in decimal). -/
def sha256K : List Nat :=
  [1116352408, 1899447441, 3049323471, 3921009573, 961987163, 1508970993,
   2453635748, 2870763221, 3624381080, 310598401, 607225278, 1426881987,
   1925078388, 2162078206, 2614888103, 3248222580, 3835390401, 4022224774,
   264347078, 604807628, 770255983, 1249150122, 1555081692, 1996064986,
   2554220882, 2821834349, 2952996808, 3210313671, 3336571891, 3584528711,
   113926993, 338241895, 666307205, 773529912, 1294757372, 1396182291,
   1695183700, 1986661051, 2177026350, 2456956037, 2730485921, 2820302411,
   3259730800, 3345764771, 3516065817, 3600352804, 4094571909, 275423344,
   430227734, 506948616, 659060556, 883997877, 958139571, 1322822218,
   1537002063, 1747873779, 1955562222, 2024104815, 2227730452, 2361852424,
   2428436474, 2756734187, 3204031479, 3329325298]

/-- SHA-256 initial hash state (FIPS 180-4, written in decimal). -/
def sha256H0 : List Nat :=
  [1779033703, 3144134277, 1013904242, 2773480762,
   1359893119, 2600822924, 528734635, 1541459225]

/-- Big-endian byte encoding of `x` on `n` bytes. -/
def beBytes (n x : Nat) : List Nat :=
  (List.range n).map (fun i => (x >>> (8 * (n - 1 - i))) % 256)

/-- SHA-256 message padding: append `0x80`, zeros up to 56 mod 64, then the
bit length on 8 big-endian bytes (119 ≡ 55 mod 64, written so the
subtraction cannot truncate). -/
def shaPad (msg : List Nat) : List Nat :=
  let z := (119 - msg.length % 64) % 64
  msg ++ [0x80] ++ List.replicate z 0 ++ beBytes 8 (msg.length * 8)

/-- Read one big-endian 32-bit word out of four bytes. -/
def word32 (b : List Nat) (i : Nat) : Nat :=
  (b.getD (4 * i) 0) <<< 24 ||| (b.getD (4 * i + 1) 0) <<< 16 |||
  (b.getD (4 * i + 2) 0) <<< 8 ||| b.getD (4 * i + 3) 0

/-- Extend the 16 block words to the 64-entry message schedule; `k` counts the
remaining entries to produce. -/
def shaExtend : Nat → List Nat → List Nat
  | 0, w => w
  | k + 1, w =>
    let i := w.length
    let w15 := w.getD (i - 15) 0
    let w2 := w.getD (i - 2) 0
    let s0 := mod32 ((rotr 7 w15).xor ((rotr 18 w15).xor (shr 3 w15)))
    let s1 := mod32 ((rotr 17 w2).xor ((rotr 19 w2).xor (shr 10 w2)))
    shaExtend k (w ++ [mod32 (w.getD (i - 16) 0 + s0 + w.getD (i - 7) 0 + s1)])

/-- One SHA-256 compression round over the eight-word working state. -/
def shaRound (w : List Nat) (t : Nat) (st : List Nat) : List Nat :=
  let a := st.getD 0 0
  let b := st.getD 1 0
  let c := st.getD 2 0
  let d := st.getD 3 0
  let e := st.getD 4 0
  let f := st.getD 5 0
  let g := st.getD 6 0
  let h := st.getD 7 0
  let s1 := mod32 ((rotr 6 e).xor ((rotr 11 e).xor (rotr 25 e)))
  let ch := mod32 ((e.land f).xor ((e.xor 4294967295).land g))
  let temp1 := mod32 (h + s1 + ch + sha256K.getD t 0 + w.getD t 0)
  let s0 := mod32 ((rotr 2 a).xor ((rotr 13 a).xor (rotr 22 a)))
  let maj := mod32 ((a.land b).xor ((a.land c).xor (b.land c)))
  let temp2 := mod32 (s0 + maj)
  [mod32 (temp1 + temp2), a, b, c, mod32 (d + temp1), e, f, g]

/-- Run rounds `t, t+1, ...` for `k` more rounds. -/
def shaRounds (w : List Nat) : Nat → Nat → List Nat → List Nat
  | _, 0, st => st
  | t, k + 1, st => shaRounds w (t + 1) k (shaRound w t st)

/-- Compress one 64-byte block into the running hash state. -/
def shaCompress (h : List Nat) (block : List Nat) : List Nat :=
  let w0 := (List.range 16).map (word32 block)
  let w := shaExtend 48 w0
  let st := shaRounds w 0 64 h
  (List.range 8).map (fun i => mod32 (h.getD i 0 + st.getD i 0))

/-- Fold the compression over consecutive 64-byte blocks; `k` is the number of
blocks still to process. -/
def shaBlocks : Nat → List Nat → List Nat → List Nat
  | 0, h, _ => h
  | k + 1, h, bytes => shaBlocks k (shaCompress h (bytes.take 64)) (bytes.drop 64)

/-- SHA-256 digest of a byte list, as eight 32-bit words. -/
def sha256Words (msg : List Nat) : List Nat :=
  let p := shaPad msg
  shaBlocks (p.length / 64) sha256H0 p

/-- One lowercase hex digit. -/
def hexDigit (n : Nat) : Char :=
  (("0123456789abcdef").toList).getD n '0'

/-- Lowercase hex of `x` on `n` digits, big-endian. -/
def hexOf (n x : Nat) : List Char :=
  (List.range n).map (fun i => hexDigit ((x >>> (4 * (n - 1 - i))) % 16))

/-- `hashlib.sha256(msg).hexdigest()`: 64 lowercase hex characters. -/
def sha256Hex (msg : List Nat) : String :=
  ⟨(sha256Words msg).foldr (fun w acc => hexOf 8 w ++ acc) []⟩

/-- UTF-8 bytes of one character (Python `str.encode()`). -/
def utf8Bytes (c : Char) : List Nat :=
  let n := c.toNat
  if n < 0x80 then [n]
  else if n < 0x800 then [0xC0 ||| (n >>> 6), 0x80 ||| (n &&& 0x3F)]
  else if n < 0x10000 then
    [0xE0 ||| (n >>> 12), 0x80 ||| ((n >>> 6) &&& 0x3F), 0x80 ||| (n &&& 0x3F)]
  else
    [0xF0 ||| (n >>> 18), 0x80 ||| ((n >>> 12) &&& 0x3F),
     0x80 ||| ((n >>> 6) &&& 0x3F), 0x80 ||| (n &&& 0x3F)]

/-- UTF-8 bytes of a string. -/
def strBytes (s : String) : List Nat :=
  s.data.foldr (fun c acc => utf8Bytes c ++ acc) []

/-- The replay-safe settlement order id of `settle_trades_if_any`
(api_helper.py lines 414-419):
`hashlib.sha256(f"{base_order_id}:{timestamp}:{idx}".encode()).hexdigest()[:32]`. -/
def settlementOrderId (baseOrderId : String) (timestamp : Int) (idx : Nat) : String :=
  (sha256Hex (strBytes (baseOrderId ++ ":" ++ toString timestamp ++ ":" ++ toString idx))).pyTake 32

/-! ## Network configuration and the chain environment -/

/-- One entry of `SUPPORTED_NETWORKS` (app.py): rpc url, numeric chain id,
settlement contract address and the symbol-to-token-address map. -/
structure NetworkCfg where
  rpc : String
  chainId : Nat
  contractAddress : String
  tokens : List (String × String)
  deriving DecidableEq, Repr

/-- The result dictionary of the settlement submission methods of
`SettlementClientSame` (success flag plus transaction hash or error). -/
structure ChainCallResult where
  success : Bool
  txHash : Option String := none
  error : Option String := none
  deriving DecidableEq, Repr

/-- The argument tuple handed to
`settle_same_chain_trade`/`settle_cross_chain_trade` of `SettlementClientSame`
by the settlement orchestrator, together with the client (rpc/contract) it is
submitted through. -/
structure SubmitParams where
  rpc : String
  contractAddress : String
  orderId : String
  party1 : String
  party2 : String
  party1ReceiveWallet : String
  party2ReceiveWallet : String
  baseAsset : String
  quoteAsset : String
  price : ℚ
  quantity : ℚ
  party1Side : String
  party2Side : String
  sourceChainId : Nat
  destChainId : Nat
  timestamp : Int
  nonce1 : Nat
  nonce2 : Nat
  deriving DecidableEq, Repr

/-- A transaction receipt as returned by
`SettlementClientCross.wait_for_tx` (status 1 = success, 0 = reverted). -/
structure Receipt where
  txHash : String
  blockNumber : Nat
  status : Nat
  gasUsed : Nat
  deriving DecidableEq, Repr

/-- The external chains, modelled as oracles for every read or submission the
code performs.  Each oracle is keyed by the client's rpc url plus the call's
arguments; an `Except.error` is a raised RPC/contract error.  Read oracles
take an attempt index so that retried calls may observe different outcomes. -/
structure ChainEnv where
  /-- `contract.functions.checkEscrowBalance(user, token).call()`:
  raw smallest-unit `(total, available, locked)`. -/
  escrow : String → String → String → Nat → Except String (Nat × Nat × Nat)
  /-- `contract.functions.getUserNonce(user, token).call()`. -/
  nonce : String → String → String → Nat → Except String Nat
  /-- `token_contract.functions.decimals().call()`. -/
  decimals : String → String → Nat → Except String Nat
  /-- `contract.functions.owner().call()`. -/
  owner : String → Except String String
  /-- The loaded signer (matching-engine) address. -/
  signer : String
  /-- Outcome of `SettlementClientSame.settle_same_chain_trade`. -/
  settleSame : SubmitParams → ChainCallResult

/-! ## SettlementClientSame: read operations (trade_settlement_client.py) -/

/-- The dictionary returned by `SettlementClientSame.check_escrow_balance`:
either the normalized balances or `{"error": msg}`. -/
inductive BalanceDict where
  | ok (total available locked : ℚ) (totalWei availableWei lockedWei : Nat)
      (user token : String)
  | err (msg : String)
  deriving DecidableEq, Repr

/-- `d.get("available", v)`. -/
def BalanceDict.availableOr (d : BalanceDict) (v : ℚ) : ℚ :=
  match d with
  | .ok _ a _ _ _ _ _ _ => a
  | .err _ => v

/-- `d.get("total", v)`. -/
def BalanceDict.totalOr (d : BalanceDict) (v : ℚ) : ℚ :=
  match d with
  | .ok t _ _ _ _ _ _ _ => t
  | .err _ => v

/-- `d.get("locked", v)`. -/
def BalanceDict.lockedOr (d : BalanceDict) (v : ℚ) : ℚ :=
  match d with
  | .ok _ _ l _ _ _ _ _ => l
  | .err _ => v

/-- `"error" in d`. -/
def BalanceDict.hasError (d : BalanceDict) : Bool :=
  match d with
  | .ok _ _ _ _ _ _ _ _ => false
  | .err _ => true

/-- `SettlementClientSame.check_escrow_balance`: the whole body is wrapped in
`try/except`, returning the balances divided by `10 ** token_decimals` on
success and `{"error": str(e)}` on any raised error. -/
def clientCheckEscrowBalance (resp : Except String (Nat × Nat × Nat))
    (tokenDecimals : Nat) (user token : String) : BalanceDict :=
  match resp with
  | .ok (t, a, l) =>
    let divisor : ℚ := (10 : ℚ) ^ tokenDecimals
    .ok (t / divisor) (a / divisor) (l / divisor) t a l user token
  | .error e => .err e

/-- `SettlementClientSame.get_token_decimals`: reads ERC20 decimals from
chain, falling back to 18 on any raised error. -/
def clientGetTokenDecimals (resp : Except String Nat) : Nat :=
  match resp with
  | .ok d => d
  | .error _ => 18

/-- `SettlementClientSame.get_user_nonce`: reads the per-user per-token nonce,
falling back to 0 on any raised error. -/
def clientGetUserNonce (resp : Except String Nat) : Nat :=
  match resp with
  | .ok n => n
  | .error _ => 0

/-- `SettlementClientSame.get_contract_owner`: contract owner, `""` on any
raised error. -/
def clientGetContractOwner (resp : Except String String) : String :=
  match resp with
  | .ok o => o
  | .error _ => ""

/-! ## APIHelper.get_token_address -/

/-- The legacy-map fallback of `APIHelper.get_token_address`: network-suffixed
key first, then the generic symbol key for hedera only. -/
def getTokenAddressLegacy (symbolUp networkKey : String)
    (legacy : List (String × String)) : String :=
  let hederaBranch :=
    if networkKey.pyLower = "hedera" then
      let a := (legacy.lookup symbolUp).getD ""
      a
    else ""
  if legacy = [] then ""
  else
    let suffix := networkKey.pyUpper
    if suffix ≠ "" then
      match legacy.lookup (symbolUp ++ "_" ++ suffix) with
      | some a => a
      | none => hederaBranch
    else hederaBranch

/-- `APIHelper.get_token_address`: resolve a token address by symbol and
network key from `SUPPORTED_NETWORKS`, falling back to the legacy
`TOKEN_ADDRESSES` map. -/
def getTokenAddress (symbol networkKey : String)
    (nets : List (String × NetworkCfg)) (legacy : List (String × String)) :
    String :=
  let symbolUp := symbol.pyUpper
  let fromNet := (((nets.lookup networkKey).map NetworkCfg.tokens).getD []).lookup symbolUp
  match fromNet with
  | some addr =>
    if addr ≠ "" then addr else getTokenAddressLegacy symbolUp networkKey legacy
  | none => getTokenAddressLegacy symbolUp networkKey legacy

/-! ## APIHelper.validate_order_prerequisites -/

/-- The order payload fields read by the pre-trade validator. -/
structure OrderData where
  account : String
  side : String
  quantity : ℚ
  price : ℚ
  fromNetwork : String
  toNetwork : String
  baseAsset : String
  quoteAsset : String
  deriving DecidableEq, Repr

/-- Entries of the validator's `errors` list (the Python strings, kept
structured so the carried amounts are inspectable). -/
inductive ValErr where
  | tokenNotConfigured (symbol networkKey : String)
  | insufficientEscrow (required available : ℚ)
  | validationError (msg : String)
  deriving DecidableEq, Repr

/-- The validator's `checks` dictionary. -/
structure ValChecks where
  account : String
  side : String
  token : String
  requiredAmount : ℚ
  availableEscrow : ℚ
  totalEscrow : ℚ
  lockedEscrow : ℚ
  networkKey : String
  rpc : String
  contractAddress : String
  tokenDecimals : Nat
  deriving DecidableEq, Repr

/-- The validator's result dictionary. -/
structure ValResult where
  valid : Bool
  errors : List ValErr
  checks : Option ValChecks
  deriving DecidableEq, Repr

/-- The decimals retry loop of `validate_order_prerequisites`
(3 attempts, keep the initial default if every attempt raises, break on the
first attempt that returns). -/
def retryFirstOk (init : Nat) : List (Except String Nat) → Nat
  | [] => init
  | .ok v :: _ => v
  | .error _ :: rest => retryFirstOk init rest

/-- The balance retry loop of `validate_order_prerequisites`
(break as soon as the returned dictionary has no "error" key, otherwise keep
the last attempt's dictionary). -/
def balanceLoop (f : Nat → BalanceDict) : List Nat → BalanceDict → BalanceDict
  | [], last => last
  | a :: rest, _ =>
    let b := f a
    if b.hasError then balanceLoop f rest b else b

/-- `default_decimals_map = {"USDT": 6, "HBAR": 18}` with default 18. -/
def defaultDecimalsMap (symbol : String) : Nat :=
  if symbol.pyUpper = "USDT" then 6
  else if symbol.pyUpper = "HBAR" then 18
  else 18

/-- The token-decimals value the validator ends up using: the per-symbol
default as initial value, then up to 3 attempts of the (total) client lookup. -/
def validatorTokenDecimals (env : ChainEnv) (rpc token symbolForDecimals : String) : Nat :=
  retryFirstOk (defaultDecimalsMap symbolForDecimals)
    ((List.range 3).map (fun a => .ok (clientGetTokenDecimals (env.decimals rpc token a))))

/-- The balance dictionary the validator ends up using (4 attempts). -/
def validatorBalanceInfo (env : ChainEnv) (rpc account token : String)
    (tokenDecimals : Nat) : BalanceDict :=
  balanceLoop
    (fun a => clientCheckEscrowBalance (env.escrow rpc account token a) tokenDecimals account token)
    [0, 1, 2, 3] (.err "")

/-- `side.lower() == "ask"`. -/
def validatorIsAsk (od : OrderData) : Bool := od.side.pyLower = "ask"

/-- `required_amount`: the quantity for an ask, quantity times price for a
bid. -/
def validatorRequired (od : OrderData) : ℚ :=
  if validatorIsAsk od then od.quantity else od.quantity * od.price

/-- `token_to_check`: the base asset's address on the from-network for an
ask, the quote asset's address on the from-network for a bid. -/
def validatorToken (od : OrderData) (nets : List (String × NetworkCfg))
    (legacy : List (String × String)) : String :=
  if validatorIsAsk od then
    getTokenAddress od.baseAsset od.fromNetwork.pyLower nets legacy
  else
    getTokenAddress od.quoteAsset od.fromNetwork.pyLower nets legacy

/-- `SUPPORTED_NETWORKS.get(network_key) or {}`. -/
def validatorNetCfg (od : OrderData) (nets : List (String × NetworkCfg)) :
    NetworkCfg :=
  (nets.lookup od.fromNetwork.pyLower).getD ⟨"", 0, "", []⟩

/-- `symbol_for_decimals`: base asset symbol for an ask, quote for a bid. -/
def validatorSymbolForDecimals (od : OrderData) : String :=
  if validatorIsAsk od then od.baseAsset else od.quoteAsset

/-- The decimals value the validator uses for normalization. -/
def validatorDecimals (od : OrderData) (nets : List (String × NetworkCfg))
    (legacy : List (String × String)) (env : ChainEnv) : Nat :=
  validatorTokenDecimals env (validatorNetCfg od nets).rpc
    (validatorToken od nets legacy) (validatorSymbolForDecimals od)

/-- The balance dictionary the validator uses. -/
def validatorBalance (od : OrderData) (nets : List (String × NetworkCfg))
    (legacy : List (String × String)) (env : ChainEnv) : BalanceDict :=
  validatorBalanceInfo env (validatorNetCfg od nets).rpc od.account
    (validatorToken od nets legacy) (validatorDecimals od nets legacy env)

/-- `balance_info.get("available", 0)`. -/
def validatorAvailable (od : OrderData) (nets : List (String × NetworkCfg))
    (legacy : List (String × String)) (env : ChainEnv) : ℚ :=
  (validatorBalance od nets legacy env).availableOr 0

/-- `APIHelper.validate_order_prerequisites`: resolve the side's token on the
from-network, determine decimals, query the escrow balance, and compare the
available balance against the required amount (quantity for an ask,
quantity times price for a bid). -/
def validateOrderPrerequisites (od : OrderData)
    (nets : List (String × NetworkCfg)) (legacy : List (String × String))
    (env : ChainEnv) : ValResult :=
  let tokenToCheck := validatorToken od nets legacy
  if ¬(tokenToCheck.pyStartsWith "0x" ∧ tokenToCheck.length = 42) then
    { valid := false
      errors := [.tokenNotConfigured (validatorSymbolForDecimals od) od.fromNetwork.pyLower]
      checks := none }
  else
    let netCfg := validatorNetCfg od nets
    let tokenDecimals := validatorDecimals od nets legacy env
    let balanceInfo := validatorBalance od nets legacy env
    let available := balanceInfo.availableOr 0
    let checks : ValChecks :=
      { account := od.account, side := od.side, token := tokenToCheck
        requiredAmount := validatorRequired od, availableEscrow := available
        totalEscrow := balanceInfo.totalOr 0, lockedEscrow := balanceInfo.lockedOr 0
        networkKey := od.fromNetwork.pyLower, rpc := netCfg.rpc
        contractAddress := netCfg.contractAddress, tokenDecimals := tokenDecimals }
    if available < validatorRequired od then
      { valid := false
        errors := [.insufficientEscrow (validatorRequired od) available]
        checks := some checks }
    else
      { valid := true, errors := [], checks := some checks }

/-! ## Trades as consumed by the settlement orchestrator -/

/-- One positional party record of a trade (`trade["party1"]`/`trade["party2"]`):
index 0 account, 1 side, 2 order id, 3 remaining quantity, 4 an unused
positional field, 5 source network, 6 destination network, 7 receive wallet.
Indices read with a length guard are `Option`s. -/
structure Party where
  addr : String
  side : String
  orderId : Option Int
  remaining : Option ℚ
  idx4 : String
  fromNetwork : Option String
  toNetwork : Option String
  receiveWallet : Option String
  deriving DecidableEq, Repr

/-- A converted trade dictionary (`converted_trades` in register_order). -/
structure Trade where
  timestamp : Int
  price : ℚ
  quantity : ℚ
  time : Int
  party1 : Party
  party2 : Party
  deriving DecidableEq, Repr

/-- The normalized roles: ask = seller of base on the source chain,
bid = buyer with quote on the destination chain. -/
structure Roles where
  askAddr : String
  askFrom : Option String
  askTo : Option String
  askRecv : String
  bidAddr : String
  bidFrom : Option String
  bidTo : Option String
  bidRecv : String
  deriving DecidableEq, Repr

/-- Role normalization of `settle_trades_if_any`: `none` when the two parties
do not report one "ask" and one "bid" side (the `invalid_sides` case). -/
def normalizeRoles (t : Trade) : Option Roles :=
  let p1s := t.party1.side.pyLower
  let p2s := t.party2.side.pyLower
  if p1s = "ask" ∧ p2s = "bid" then
    some { askAddr := t.party1.addr, askFrom := t.party1.fromNetwork
           askTo := t.party1.toNetwork
           askRecv := t.party1.receiveWallet.getD t.party1.addr
           bidAddr := t.party2.addr, bidFrom := t.party2.fromNetwork
           bidTo := t.party2.toNetwork
           bidRecv := t.party2.receiveWallet.getD t.party2.addr }
  else if p1s = "bid" ∧ p2s = "ask" then
    some { askAddr := t.party2.addr, askFrom := t.party2.fromNetwork
           askTo := t.party2.toNetwork
           askRecv := t.party2.receiveWallet.getD t.party2.addr
           bidAddr := t.party1.addr, bidFrom := t.party1.fromNetwork
           bidTo := t.party1.toNetwork
           bidRecv := t.party1.receiveWallet.getD t.party1.addr }
  else none

/-! ## APIHelper.settle_trades_if_any -/

/-- A per-chain sub-result inside a trade's settlement result. -/
structure ChainOutcome where
  success : Bool
  txHash : Option String := none
  error : Option String := none
  skipped : Bool := false
  reason : Option String := none
  deriving DecidableEq, Repr

/-- Lift a client call result into a per-chain sub-result. -/
def ChainCallResult.toOutcome (r : ChainCallResult) : ChainOutcome :=
  { success := r.success, txHash := r.txHash, error := r.error }

/-- The per-trade `settlement_result` dictionary. -/
structure SettlementResult where
  success : Bool
  error : Option String := none
  requiredAvailable : Option (ℚ × ℚ) := none
  ownerSigner : Option (String × String) := none
  sourceChain : Option ChainOutcome := none
  destChain : Option ChainOutcome := none
  orderId : Option String := none
  deriving DecidableEq, Repr

/-- Which settlement entry point a submission went through. -/
inductive SubKind where
  | same
  | crossSource
  | crossDest
  deriving DecidableEq, Repr

/-- One on-chain settlement submission issued by the orchestrator. -/
structure Submission where
  kind : SubKind
  params : SubmitParams
  deriving DecidableEq, Repr

/-- One escrow-balance query issued by the orchestrator, recording the
`token_decimals` argument it was issued with. -/
structure EscrowQuery where
  purpose : String
  rpc : String
  user : String
  token : String
  decimalsUsed : Nat
  deriving DecidableEq, Repr

/-- Everything observable about settling one trade: the appended settlement
result, the settlement submissions issued (in order), the escrow queries
issued (in order), and — when the loop body raised — the exception message
that propagates out of the per-trade loop (`result` is then a dummy, since
nothing is appended). -/
structure TradeOut where
  result : SettlementResult
  submissions : List Submission
  queries : List EscrowQuery
  raised : Option String := none
  deriving DecidableEq, Repr

/-- The message of the `AttributeError` raised at api_helper.py line 552:
`settle_cross_chain_trade` is looked up on a `SettlementClientSame`, but
that method exists only on `SettlementClientCross`
(trade_settlement_client.py line 534). Python's `str(e)` puts the class and
attribute names in single quotes, elided here. -/
def attrErrMsg : String :=
  "SettlementClientSame object has no attribute settle_cross_chain_trade"

/-- The nonce fetch with retry (`_retry_get_nonce`): up to 3 attempts of the
(total) client lookup, defaulting to 0. -/
def nonceRetry (env : ChainEnv) (rpc user token : String) : Nat :=
  retryFirstOk 0
    ((List.range 3).map (fun a => .ok (clientGetUserNonce (env.nonce rpc user token a))))

/-- `base_token_src`: the base asset's token address on the ask side's
network. -/
def askBaseTokenOf (nets : List (String × NetworkCfg))
    (legacy : List (String × String)) (baseAsset : String) (r : Roles) : String :=
  getTokenAddress baseAsset (r.askFrom.getD "") nets legacy

/-- `quote_token_src`: the quote asset's token address on the ask side's
network. -/
def srcQuoteTokenOf (nets : List (String × NetworkCfg))
    (legacy : List (String × String)) (quoteAsset : String) (r : Roles) : String :=
  getTokenAddress quoteAsset (r.askFrom.getD "") nets legacy

/-- `quote_token_dest`: the quote asset's token address on the bid side's
network. -/
def destQuoteTokenOf (nets : List (String × NetworkCfg))
    (legacy : List (String × String)) (quoteAsset : String) (r : Roles) : String :=
  getTokenAddress quoteAsset (r.bidFrom.getD "") nets legacy

/-- `check_escrow_balance(user, token, token_decimals=18).get("available", 0)`
on the client at `rpc`. -/
def escrowAvailable (env : ChainEnv) (rpc user token : String) : ℚ :=
  (clientCheckEscrowBalance (env.escrow rpc user token 0) 18 user token).availableOr 0

/-- The `signer is not contract owner` local rejection condition. -/
def signerNotOwner (env : ChainEnv) (rpc : String) : Bool :=
  let o := clientGetContractOwner (env.owner rpc)
  o ≠ "" && env.signer ≠ "" && o.pyLower ≠ env.signer.pyLower

/-- The argument tuple of the same-chain submission
(`settle_same_chain_trade`): base and quote token both resolved on the
source network, nonces fetched for the ask party's base token on the source
client and the bid party's quote token on the destination client. -/
def sameParamsOf (nets : List (String × NetworkCfg))
    (legacy : List (String × String)) (env : ChainEnv)
    (baseAsset quoteAsset baseOrderId : String) (idx : Nat) (t : Trade)
    (r : Roles) (srcCfg destCfg : NetworkCfg) : SubmitParams :=
  { rpc := srcCfg.rpc, contractAddress := srcCfg.contractAddress
    orderId := settlementOrderId baseOrderId t.timestamp idx
    party1 := r.askAddr, party2 := r.bidAddr
    party1ReceiveWallet := r.askRecv, party2ReceiveWallet := r.bidRecv
    baseAsset := askBaseTokenOf nets legacy baseAsset r
    quoteAsset := srcQuoteTokenOf nets legacy quoteAsset r
    price := t.price, quantity := t.quantity
    party1Side := "ask", party2Side := "bid"
    sourceChainId := srcCfg.chainId, destChainId := destCfg.chainId
    timestamp := t.timestamp
    nonce1 := nonceRetry env srcCfg.rpc r.askAddr (askBaseTokenOf nets legacy baseAsset r)
    nonce2 := nonceRetry env destCfg.rpc r.bidAddr (destQuoteTokenOf nets legacy quoteAsset r) }

/-- The body of the per-trade loop of `APIHelper.settle_trades_if_any`:
normalize roles, resolve networks, check signer against owner, resolve token
addresses, pre-flight escrow checks, fetch nonces, compute the replay-safe
order id, then settle same-chain (one atomic call); a cross-chain trade
reaching the settle step raises (the cross-chain settle method is missing
on the client class used). -/
def settleOneTrade (nets : List (String × NetworkCfg))
    (legacy : List (String × String)) (env : ChainEnv)
    (baseAsset quoteAsset baseOrderId : String) (idx : Nat) (t : Trade) :
    TradeOut :=
  match normalizeRoles t with
  | none => ⟨{ success := false, error := some "invalid_sides" }, [], [], none⟩
  | some r =>
    match r.askFrom.bind (nets.lookup ·), r.bidFrom.bind (nets.lookup ·) with
    | none, _ =>
      ⟨{ success := false, error := some "Network configuration not found" }, [], [], none⟩
    | some _, none =>
      ⟨{ success := false, error := some "Network configuration not found" }, [], [], none⟩
    | some srcCfg, some destCfg =>
      if signerNotOwner env srcCfg.rpc then
        ⟨{ success := false, error := some "signer_not_owner"
           ownerSigner := some (clientGetContractOwner (env.owner srcCfg.rpc), env.signer) },
         [], [], none⟩
      else
        let baseTokenSrc := askBaseTokenOf nets legacy baseAsset r
        let quoteTokenSrc := srcQuoteTokenOf nets legacy quoteAsset r
        let quoteTokenDest := destQuoteTokenOf nets legacy quoteAsset r
        let askQuery : EscrowQuery :=
          ⟨"ask_base", srcCfg.rpc, r.askAddr, baseTokenSrc, 18⟩
        let askAvail := escrowAvailable env srcCfg.rpc r.askAddr baseTokenSrc
        let askNeeded := t.quantity
        if askAvail < askNeeded then
          ⟨{ success := false, error := some "insufficient_ask_base_escrow"
             requiredAvailable := some (askNeeded, askAvail) }, [], [askQuery], none⟩
        else
          let bidQuery : EscrowQuery :=
            ⟨"bid_quote", destCfg.rpc, r.bidAddr, quoteTokenDest, 18⟩
          let bidAvail := escrowAvailable env destCfg.rpc r.bidAddr quoteTokenDest
          let bidNeeded := t.quantity * t.price
          if bidAvail < bidNeeded then
            ⟨{ success := false, error := some "insufficient_bid_quote_escrow"
               requiredAvailable := some (bidNeeded, bidAvail) }, [],
             [askQuery, bidQuery], none⟩
          else
            let orderId := settlementOrderId baseOrderId t.timestamp idx
            if srcCfg.chainId = destCfg.chainId then
              -- Same-chain settlement with its own preflight escrow checks
              -- (both balance queries are issued before either comparison)
              let sameBaseQuery : EscrowQuery :=
                ⟨"same_base", srcCfg.rpc, r.askAddr, baseTokenSrc, 18⟩
              let sameQuoteQuery : EscrowQuery :=
                ⟨"same_quote", srcCfg.rpc, r.bidAddr, quoteTokenSrc, 18⟩
              let baseAvail := escrowAvailable env srcCfg.rpc r.askAddr baseTokenSrc
              let quoteAvail := escrowAvailable env srcCfg.rpc r.bidAddr quoteTokenSrc
              let baseNeeded := t.quantity
              let quoteNeeded := t.quantity * t.price
              if baseAvail < baseNeeded then
                ⟨{ success := false, error := some "insufficient_escrow_base_same_chain"
                   requiredAvailable := some (baseNeeded, baseAvail) }, [],
                 [askQuery, bidQuery, sameBaseQuery, sameQuoteQuery], none⟩
              else if quoteAvail < quoteNeeded then
                ⟨{ success := false, error := some "insufficient_escrow_quote_same_chain"
                   requiredAvailable := some (quoteNeeded, quoteAvail) }, [],
                 [askQuery, bidQuery, sameBaseQuery, sameQuoteQuery], none⟩
              else
                let params :=
                  sameParamsOf nets legacy env baseAsset quoteAsset baseOrderId idx t r srcCfg destCfg
                let resultSource := (env.settleSame params).toOutcome
                let resultDest : ChainOutcome :=
                  { success := true, skipped := true, reason := some "same_chain_atomic" }
                ⟨{ success := resultSource.success && resultDest.success
                   sourceChain := some resultSource, destChain := some resultDest
                   orderId := some orderId },
                 [⟨.same, params⟩],
                 [askQuery, bidQuery, sameBaseQuery, sameQuoteQuery], none⟩
            else
              -- Cross-chain settlement: `client_source.settle_cross_chain_trade`
              -- (api_helper.py line 552) looks the method up on a
              -- `SettlementClientSame`, which does not have it, so the loop
              -- body raises before any settlement submission; the dead code
              -- below that line (source first, destination skipped with
              -- reason source_failed on failure) is never reached.
              ⟨{ success := false }, [], [askQuery, bidQuery], some attrErrMsg⟩

/-- Map with the positional index, starting at `i`. -/
def mapWithIdx (f : Nat → α → β) : Nat → List α → List β
  | _, [] => []
  | i, a :: as => f i a :: mapWithIdx f (i + 1) as

/-- The order dictionary handed to the settlement helpers. -/
structure OrderDict where
  orderId : Int
  account : String
  price : ℚ
  quantity : ℚ
  side : String
  baseAsset : String
  quoteAsset : String
  trades : List Trade
  timestamp : Int
  deriving DecidableEq, Repr

/-- The dictionary returned by the settlement helpers. -/
structure SettleInfo where
  settled : Bool
  reason : Option String := none
  error : Option String := none
  results : List TradeOut := []
  totalTrades : Nat := 0
  successfulSettlements : Nat := 0
  deriving DecidableEq, Repr

/-- The per-trade loop body of `settle_trades_if_any`, run in sequence over
the trades: a loop body that raises (the cross-chain branch's missing-method
lookup) aborts the whole loop, propagating the exception. -/
def settleLoop (nets : List (String × NetworkCfg))
    (legacy : List (String × String)) (env : ChainEnv)
    (baseAsset quoteAsset baseOrderId : String) :
    Nat → List Trade → Except String (List TradeOut)
  | _, [] => Except.ok []
  | i, t :: ts =>
    let out := settleOneTrade nets legacy env baseAsset quoteAsset baseOrderId i t
    match out.raised with
    | some msg => Except.error msg
    | none =>
      match settleLoop nets legacy env baseAsset quoteAsset baseOrderId (i + 1) ts with
      | Except.error msg => Except.error msg
      | Except.ok rest => Except.ok (out :: rest)

/-- `APIHelper.settle_trades_if_any`: settle every trade of the order in
sequence and count the successful settlements; an exception escaping the
per-trade loop is caught by the enclosing try/except, which returns
`{"settled": False, "error": str(e)}`. -/
def settleTradesIfAny (od : OrderDict) (nets : List (String × NetworkCfg))
    (legacy : List (String × String)) (env : ChainEnv) : SettleInfo :=
  if od.trades.isEmpty then
    { settled := false, reason := some "No trades to settle" }
  else
    match settleLoop nets legacy env od.baseAsset od.quoteAsset (toString od.orderId)
        0 od.trades with
    | Except.error msg => { settled := false, error := some msg }
    | Except.ok results =>
      { settled := true, results := results, totalTrades := od.trades.length
        successfulSettlements := results.countP (fun r => r.result.success) }

/-- `SUPPORTED_NETWORKS.get(k, {}).get("chain_id")`. -/
def chainIdOf (nets : List (String × NetworkCfg)) (k : String) : Option Nat :=
  (nets.lookup k).map (·.chainId)

/-- `APIHelper.settle_trades_if_any_same`: gate on the first trade's party
networks resolving to the same chain id, then delegate. -/
def settleTradesIfAnySame (od : OrderDict) (nets : List (String × NetworkCfg))
    (legacy : List (String × String)) (env : ChainEnv) : SettleInfo :=
  match od.trades with
  | [] => { settled := false, reason := some "No trades to settle" }
  | t0 :: _ =>
    let p1from := (t0.party1.fromNetwork).getD ""
    let p2from := (t0.party2.fromNetwork).getD ""
    if p1from = "" ∨ p2from = "" then
      { settled := false, error := some "missing_networks" }
    else if chainIdOf nets p1from ≠ chainIdOf nets p2from then
      { settled := false, error := some "not_same_chain" }
    else
      settleTradesIfAny od nets legacy env

/-- `APIHelper.settle_trades_if_any_cross`: gate on the first trade's party
networks resolving to different chain ids, then delegate. -/
def settleTradesIfAnyCross (od : OrderDict) (nets : List (String × NetworkCfg))
    (legacy : List (String × String)) (env : ChainEnv) : SettleInfo :=
  match od.trades with
  | [] => { settled := false, reason := some "No trades to settle" }
  | t0 :: _ =>
    let p1from := (t0.party1.fromNetwork).getD ""
    let p2from := (t0.party2.fromNetwork).getD ""
    if p1from = "" ∨ p2from = "" then
      { settled := false, error := some "missing_networks" }
    else if chainIdOf nets p1from = chainIdOf nets p2from then
      { settled := false, error := some "not_cross_chain" }
    else
      settleTradesIfAny od nets legacy env

/-! ## APIService.register_order -/

/-- Modelled from the spec: the order dictionary the matching engine hands
back (or the mutated input dictionary) — the Matching Engine assigns
`order_id` (monotonically, at acceptance time) and `timestamp`; the
remaining fields come from the posted order. -/
structure OrderRec where
  orderId : Int
  account : String
  price : ℚ
  quantity : ℚ
  side : String
  baseAsset : String
  quoteAsset : String
  timestamp : Int
  deriving DecidableEq, Repr

/-- The value of `order_book.process_order(_order, False, False)` as consumed
by `register_order`: a success flag and, on success, the trades, the possibly
resting order, and the next best opposing order.  `mutatedOrder` is the input
order dictionary after the engine mutated it in place (modelled from the
spec, since the engine source is not in the repository snapshot): it carries
the engine-assigned id and timestamp, used by the `order is None` fallback. -/
structure ProcessResult where
  success : Bool
  failMsg : String := ""
  trades : List Trade := []
  order : Option OrderRec := none
  mutatedOrder : OrderRec
  nextBest : Option OrderRec := none
  taskId : Nat := 0
  deriving DecidableEq, Repr

/-- One appended activity record. -/
inductive ActivityRec where
  | orderPlaced (symbol : String) (orderId : Int) (account side : String)
      (price quantity : ℚ) (timestamp : Int)
  | tradeExecuted (symbol : String) (price quantity : ℚ) (timestamp : Int)
      (txHash txHashSource txHashDestination : Option String)
  | orderCancelled (symbol : String) (orderId : Int) (side : String)
      (timestamp : Int)
  deriving DecidableEq, Repr

/-- Is this record a `trade_executed` record? -/
def ActivityRec.isTradeExecuted : ActivityRec → Bool
  | .tradeExecuted _ _ _ _ _ _ _ => true
  | _ => false

/-- The JSON response of `register_order` (http status and the body's
`status_code`). -/
structure RegResponse where
  httpStatus : Nat
  statusCode : Nat
  message : String
  deriving DecidableEq, Repr

/-- Everything observable about one `register_order` request: the response,
whether `process_order` was invoked on the book, the `(side, order_id)`
passed to `cancel_order` when the match was rolled back, the activity records
appended, and the settlement info. -/
structure RegOutcome where
  response : RegResponse
  bookTouched : Bool
  cancelled : Option (String × Int)
  activity : List ActivityRec
  settlementInfo : SettleInfo
  deriving DecidableEq, Repr

/-- The `trade_executed` records `register_order` appends once settlement
fully succeeded: one per trade whose per-trade settlement result is
successful (missing results default to success), carrying the per-chain
transaction hashes. -/
def executedRecords (symbol : String) (trades : List Trade)
    (results : List TradeOut) : List ActivityRec :=
  (mapWithIdx (fun i tr =>
      let res? := results.get? i
      let trOk := match res? with
        | some r => r.result.success
        | none => true
      if trOk then
        let srcHash := (res?.bind (·.result.sourceChain)).bind (·.txHash)
        let dstHash := (res?.bind (·.result.destChain)).bind (·.txHash)
        some (ActivityRec.tradeExecuted symbol tr.price tr.quantity tr.timestamp
          (if srcHash.isSome ∧ dstHash.isNone then srcHash else none)
          srcHash dstHash)
      else none)
    0 trades).reduceOption

/-- The order dictionary as `register_order` consumes it from
`process_order`'s result: the returned order when present, otherwise the
mutated input order with id forced to 1. -/
def effectiveOrder (pr : ProcessResult) : OrderRec :=
  pr.order.getD { pr.mutatedOrder with orderId := 1 }

/-- The serializable `order_dict` handed to settlement. -/
def regOrderDict (pr : ProcessResult) : OrderDict :=
  let order := effectiveOrder pr
  { orderId := order.orderId, account := order.account
    price := order.price, quantity := order.quantity, side := order.side
    baseAsset := order.baseAsset, quoteAsset := order.quoteAsset
    trades := pr.trades, timestamp := order.timestamp }

/-- The `settlement_info` of `register_order`: absent trades leave it
unsettled, a synchronous timeout is recorded as reason "timeout", otherwise
the same-chain settlement helper runs. -/
def regSettleInfo (nets : List (String × NetworkCfg))
    (legacy : List (String × String)) (env : ChainEnv) (pr : ProcessResult)
    (timedOut : Bool) : SettleInfo :=
  if pr.trades.isEmpty then { settled := false }
  else if timedOut then { settled := false, reason := some "timeout" }
  else settleTradesIfAnySame (regOrderDict pr) nets legacy env

/-- The `order_placed` activity record of this request. -/
def placedRecord (payload : OrderData) (pr : ProcessResult) : ActivityRec :=
  let order := effectiveOrder pr
  ActivityRec.orderPlaced (payload.baseAsset ++ "_" ++ payload.quoteAsset)
    order.orderId order.account order.side order.price order.quantity
    order.timestamp

/-- The tail of `register_order` once the order was accepted by the book:
log the placement, settle, and either roll the match back out of the book
(when there are trades and settlement did not fully succeed) or record the
executed trades. -/
def registerOrderMain (payload : OrderData) (nets : List (String × NetworkCfg))
    (legacy : List (String × String)) (env : ChainEnv) (pr : ProcessResult)
    (timedOut : Bool) : RegOutcome :=
  let order := effectiveOrder pr
  let symbol := payload.baseAsset ++ "_" ++ payload.quoteAsset
  let placed := placedRecord payload pr
  let sinfo := regSettleInfo nets legacy env pr timedOut
  if ¬pr.trades.isEmpty ∧
      ¬(sinfo.settled ∧ sinfo.successfulSettlements ≥ pr.trades.length) then
    { response := ⟨400, 0, "On-chain settlement failed; order not accepted"⟩
      bookTouched := true
      cancelled := if order.orderId ≠ 0 then some (order.side, order.orderId) else none
      activity := [placed], settlementInfo := sinfo }
  else
    { response := ⟨200, 1, "Order registered successfully"⟩
      bookTouched := true, cancelled := none
      activity := placed :: executedRecords symbol pr.trades sinfo.results
      settlementInfo := sinfo }

/-- `APIService.register_order`: reject cross-network payloads, validate
prerequisites (rejecting before the book is touched), process the order in
the book, log the placement, settle synchronously with a timeout treated as
failure, and either roll the match back out of the book on any settlement
shortfall or record the executed trades.  `timedOut` is true when the
settlement task exceeded `SETTLEMENT_SYNC_TIMEOUT` (`asyncio.TimeoutError`). -/
def registerOrder (payload : OrderData) (nets : List (String × NetworkCfg))
    (legacy : List (String × String)) (env : ChainEnv) (pr : ProcessResult)
    (timedOut : Bool) : RegOutcome :=
  let fromNet := payload.fromNetwork.pyLower
  let toNet := payload.toNetwork.pyLower
  if fromNet ≠ "" ∧ toNet ≠ "" ∧ fromNet ≠ toNet then
    { response := ⟨400, 0, "Use /api/register_order_cross for cross-chain orders"⟩
      bookTouched := false, cancelled := none, activity := []
      settlementInfo := { settled := false } }
  else
    let validation := validateOrderPrerequisites payload nets legacy env
    if ¬validation.valid then
      { response := ⟨400, 0, "Order validation failed"⟩
        bookTouched := false, cancelled := none, activity := []
        settlementInfo := { settled := false } }
    else if ¬pr.success then
      { response := ⟨400, 0, pr.failMsg⟩
        bookTouched := true, cancelled := none, activity := []
        settlementInfo := { settled := false } }
    else
      registerOrderMain payload nets legacy env pr timedOut

/-! ## Matching engine (modelled from the spec)

Modelled from the spec: the per-symbol `OrderBook` class (`from src import
OrderBook`) is not present in the repository snapshot under `src/`; only its
callers are.  The matching algorithm below follows spec section 4.1: while the
incoming order still has quantity and the opposite side's best order crosses
the incoming limit price, match at the resting order's price for the minimum
of the two remaining quantities, decrementing both; a leftover incoming
quantity rests. -/

/-- Modelled from the spec: a resting or incoming order of the matching
engine's book (the `OrderBook` source is missing from the snapshot). -/
structure BookOrder where
  orderId : Nat
  account : String
  side : String
  price : ℚ
  quantity : ℚ
  timestamp : Nat
  deriving DecidableEq, Repr

/-- Modelled from the spec: a trade of the matching engine — execution
price, matched quantity, and which resting (maker) order it consumed. -/
structure SpecTrade where
  price : ℚ
  quantity : ℚ
  makerOrderId : Nat
  takerOrderId : Nat
  deriving DecidableEq, Repr

/-- Modelled from the spec: does the incoming order's limit price cross the
resting order's price (bid price at or above a resting ask, or ask price at
or below a resting bid)? -/
def crossesPrice (incomingSide : String) (incomingPrice restingPrice : ℚ) : Bool :=
  if incomingSide = "bid" then restingPrice ≤ incomingPrice
  else incomingPrice ≤ restingPrice

/-- Modelled from the spec: the matching loop of spec section 4.1 over the
opposite side's orders (already in best-first price-time order) — while the
incoming order has remaining quantity and the best opposing order crosses,
match at the resting order's price for the minimum of the two remaining
quantities; returns the trades, the remaining opposite side, and the
incoming remainder left to rest. -/
def matchLoop (inc : BookOrder) :
    List BookOrder → List SpecTrade × List BookOrder × Option BookOrder
  | [] => ([], [], if 0 < inc.quantity then some inc else none)
  | r :: rest =>
    if crossesPrice inc.side inc.price r.price ∧ 0 < inc.quantity then
      let q := min inc.quantity r.quantity
      let trade : SpecTrade := ⟨r.price, q, r.orderId, inc.orderId⟩
      if inc.quantity < r.quantity then
        ([trade], { r with quantity := r.quantity - q } :: rest, none)
      else if inc.quantity = r.quantity then
        ([trade], rest, none)
      else
        let next := matchLoop { inc with quantity := inc.quantity - q } rest
        (trade :: next.1, next.2.1, next.2.2)
    else
      ([], r :: rest, if 0 < inc.quantity then some inc else none)

/-! ## APIService.register_order_cross: per-trade settlement -/

/-- One positional party record as `register_order_cross` reads it (note the
layout it assumes: index 4 source chain, 5 destination chain, 6 receive
wallet, 7 the originating order dictionary). -/
structure CrossParty where
  account : String
  side : String
  orderId : Int
  qty : ℚ
  sourceChain : String
  destChain : String
  receiveWallet : String
  orderBaseAsset : String
  orderQuoteAsset : String
  deriving DecidableEq, Repr

/-- A trade as consumed by the `register_order_cross` settlement loop. -/
structure CrossTrade where
  quantity : ℚ
  party1 : CrossParty
  party2 : CrossParty
  deriving DecidableEq, Repr

/-- The `CrossChainTradeData` struct built by `register_order_cross`
(amounts already scaled to wei as integers). -/
structure CrossTradeData where
  orderId : String
  party1 : String
  party2 : String
  party1ReceiveWallet : String
  party2ReceiveWallet : String
  baseAsset : String
  quoteAsset : String
  price : Int
  quantity : Int
  party1Side : String
  party2Side : String
  sourceChainId : Nat
  destinationChainId : Nat
  timestamp : Int
  nonce1 : Nat
  nonce2 : Nat
  deriving DecidableEq, Repr

/-- One `settle_cross_chain_trade` submission through
`SettlementClientCross`. -/
structure CrossSub where
  rpc : String
  contractAddress : String
  tradeData : CrossTradeData
  isSourceChain : Bool
  deriving DecidableEq, Repr

/-- The external effects `register_order_cross` draws on: the per-trade
random token (`secrets.token_hex(32)`), the wall clock (`int(time())`), and
the transaction receipt of each cross-chain submission (an `Except.error` is
a raised send/connection error; a mined-but-reverted transaction is a
receipt with `status = 0`). -/
structure CrossEnv where
  randToken : Nat → String
  now : Int
  receipt : CrossSub → Except String Receipt

/-- Python `int(...)` on an exact decimal value (truncation toward zero). -/
def pyInt (q : ℚ) : Int := if 0 ≤ q then ⌊q⌋ else ⌈q⌉

/-- `supported_networks[chain]["tokens"][sym]` with `KeyError` as failure. -/
def crossTokenLookup (nets : List (String × NetworkCfg)) (chain sym : String) :
    Except String String :=
  match (nets.lookup chain).map NetworkCfg.tokens with
  | none => .error ("KeyError: " ++ chain)
  | some tokens =>
    match tokens.lookup sym with
    | none => .error ("KeyError: " ++ sym)
    | some a => .ok a

/-- Token resolution for one party in `register_order_cross`.  For a bid
party the base token is looked up on the destination chain and the quote
token on the source chain.  For an ask party the code indexes
`["tokens"]["tokens"]` (api_service.py lines 598-603 for party1), which
always raises `KeyError` since no network's token map has a "tokens" key;
party2's ask branch (lines 626-631) is the correct single-level lookup. -/
def crossPartyTokens (nets : List (String × NetworkCfg)) (p : CrossParty)
    (doubleTokensBug : Bool) : Except String (String × String) :=
  if p.side = "bid" then do
    let b ← crossTokenLookup nets p.destChain p.orderBaseAsset
    let q ← crossTokenLookup nets p.sourceChain p.orderQuoteAsset
    pure (b, q)
  else
    if doubleTokensBug then .error "KeyError: tokens"
    else do
      let b ← crossTokenLookup nets p.sourceChain p.orderBaseAsset
      let q ← crossTokenLookup nets p.destChain p.orderQuoteAsset
      pure (b, q)

/-- The per-trade settlement section of `APIService.register_order_cross`
(api_service.py lines 575-772): resolve party tokens, order the parties so
that the ask side settles on the source chain, build the trade struct with a
fresh random order id and the *request body's* price, then submit on the
source chain and, unconditionally, on the destination chain.  Returns the
submissions issued in order and the pair of receipts (or the raised error). -/
def crossSettleTrade (nets : List (String × NetworkCfg)) (cenv : CrossEnv)
    (bodyPrice : ℚ) (idx : Nat) (t : CrossTrade) :
    List CrossSub × Except String (Receipt × Receipt) :=
  let baseQty := t.quantity
  match crossPartyTokens nets t.party1 true with
  | .error e => ([], .error e)
  | .ok (p1Base, p1Quote) =>
    match crossPartyTokens nets t.party2 false with
    | .error e => ([], .error e)
    | .ok (p2Base, p2Quote) =>
      let arrangement :
          Except String (CrossParty × CrossParty × String × String × String × String) :=
        if t.party1.side = "ask" ∧ t.party2.side = "bid" then
          .ok (t.party1, t.party2, t.party1.sourceChain, t.party2.sourceChain,
               p1Base, p2Quote)
        else if t.party1.side = "bid" ∧ t.party2.side = "ask" then
          .ok (t.party2, t.party1, t.party2.sourceChain, t.party1.sourceChain,
               p2Base, p1Quote)
        else .error "Invalid trade sides - both parties on same side"
      match arrangement with
      | .error e => ([], .error e)
      | .ok (srcParty, destParty, srcChain, destChain, crossBase, crossQuote) =>
        match nets.lookup srcChain, nets.lookup destChain with
        | some srcCfg, some destCfg =>
          let td : CrossTradeData :=
            { orderId := "0x" ++ cenv.randToken idx
              party1 := srcParty.account, party2 := destParty.account
              party1ReceiveWallet := srcParty.receiveWallet
              party2ReceiveWallet := destParty.receiveWallet
              baseAsset := crossBase, quoteAsset := crossQuote
              price := pyInt (bodyPrice * (10 : ℚ) ^ (18 : ℕ))
              quantity := pyInt (baseQty * (10 : ℚ) ^ (18 : ℕ))
              party1Side := "ask", party2Side := "bid"
              sourceChainId := srcCfg.chainId
              destinationChainId := destCfg.chainId
              timestamp := cenv.now, nonce1 := 0, nonce2 := 0 }
          let srcSub : CrossSub := ⟨srcCfg.rpc, srcCfg.contractAddress, td, true⟩
          match cenv.receipt srcSub with
          | .error e => ([srcSub], .error e)
          | .ok rSrc =>
            let dstSub : CrossSub := ⟨destCfg.rpc, destCfg.contractAddress, td, false⟩
            match cenv.receipt dstSub with
            | .error e => ([srcSub, dstSub], .error e)
            | .ok rDst => ([srcSub, dstSub], .ok (rSrc, rDst))
        | _, _ => ([], .error "KeyError: network")

/-! ## Concrete fixtures for witnesses and counterexamples -/

/-- A well-formed token address (42 characters, 0x-prefixed). -/
def tokAddrA : String := "0xaaaaaaaaaaaaaaaaaaaaaaaaaaaaaaaaaaaaaaaa"

/-- A second well-formed token address. -/
def tokAddrB : String := "0xbbbbbbbbbbbbbbbbbbbbbbbbbbbbbbbbbbbbbbbb"

/-- A third well-formed token address. -/
def tokAddrC : String := "0xcccccccccccccccccccccccccccccccccccccccc"

/-- A fourth well-formed token address. -/
def tokAddrD : String := "0xdddddddddddddddddddddddddddddddddddddddd"

/-- The hedera test network configuration. -/
def hederaCfg : NetworkCfg :=
  ⟨"rpcH", 296, "0xC1", [("HBAR", tokAddrA), ("USDT", tokAddrB)]⟩

/-- The ethereum test network configuration. -/
def ethereumCfg : NetworkCfg :=
  ⟨"rpcE", 11155111, "0xC2", [("HBAR", tokAddrC), ("USDT", tokAddrD)]⟩

/-- A two-network configuration in the shape of `SUPPORTED_NETWORKS`. -/
def testNets : List (String × NetworkCfg) :=
  [("hedera", hederaCfg), ("ethereum", ethereumCfg)]

/-- A same-chain trade: alice sells 5 HBAR to bob at 10, both on hedera. -/
def tradeHedera : Trade :=
  { timestamp := 1759959000, price := 10, quantity := 5, time := 1759959000
    party1 := ⟨"0xalice", "ask", some 7, some 0, "", some "hedera", some "hedera",
               some "0xalicerecv"⟩
    party2 := ⟨"0xbob", "bid", some 8, some 0, "", some "hedera", some "hedera",
               some "0xbobrecv"⟩ }

/-- The normalized roles of `tradeHedera`. -/
def rolesHedera : Roles :=
  { askAddr := "0xalice", askFrom := some "hedera", askTo := some "hedera"
    askRecv := "0xalicerecv"
    bidAddr := "0xbob", bidFrom := some "hedera", bidTo := some "hedera"
    bidRecv := "0xbobrecv" }

/-- A cross-chain trade: alice sells 5 HBAR on hedera, bob pays USDT on
ethereum. -/
def tradeCross : Trade :=
  { timestamp := 1759959000, price := 10, quantity := 5, time := 1759959000
    party1 := ⟨"0xalice", "ask", some 7, some 0, "", some "hedera", some "ethereum",
               some "0xalicerecv"⟩
    party2 := ⟨"0xbob", "bid", some 8, some 0, "", some "ethereum", some "hedera",
               some "0xbobrecv"⟩ }

/-- The normalized roles of `tradeCross`. -/
def rolesCross : Roles :=
  { askAddr := "0xalice", askFrom := some "hedera", askTo := some "ethereum"
    askRecv := "0xalicerecv"
    bidAddr := "0xbob", bidFrom := some "ethereum", bidTo := some "hedera"
    bidRecv := "0xbobrecv" }

/-- A benign environment: huge escrow everywhere, reads succeed, the owner
read fails (so the local owner check is skipped), submissions succeed. -/
def envRich : ChainEnv :=
  { escrow := fun _ _ _ _ => .ok (10 ^ 30, 10 ^ 30, 0)
    nonce := fun _ _ _ _ => .ok 0
    decimals := fun _ _ _ => .ok 18
    owner := fun _ => .error "owner read failed"
    signer := "0xengine"
    settleSame := fun _ => { success := true, txHash := some "0xsamehash" } }

/-- `envRich` with every on-chain decimals lookup raising. -/
def envDecimalsDown : ChainEnv :=
  { envRich with decimals := fun _ _ _ => .error "429 Too Many Requests" }

/-- `envRich` with only 1 whole token (at 18 decimals) in escrow. -/
def envPoor : ChainEnv :=
  { envRich with escrow := fun _ _ _ _ => .ok (10 ^ 18, 10 ^ 18, 0) }

/-- A bid order for 5 HBAR at 10 USDT on hedera. -/
def bidUsdtOrder : OrderData :=
  { account := "0xbob", side := "bid", quantity := 5, price := 10
    fromNetwork := "hedera", toNetwork := "hedera"
    baseAsset := "HBAR", quoteAsset := "USDT" }

/-- An ask order for 5 HBAR at 10 USDT on hedera. -/
def askHbarOrder : OrderData :=
  { account := "0xalice", side := "ask", quantity := 5, price := 10
    fromNetwork := "hedera", toNetwork := "hedera"
    baseAsset := "HBAR", quoteAsset := "USDT" }

/-- The engine's order record for `askHbarOrder` with id 7. -/
def orderRec7 : OrderRec :=
  { orderId := 7, account := "0xalice", price := 10, quantity := 5
    side := "ask", baseAsset := "HBAR", quoteAsset := "USDT"
    timestamp := 1759959000 }

/-- A successful `process_order` result with no trades. -/
def prNoTrades : ProcessResult :=
  { success := true, mutatedOrder := orderRec7, order := some orderRec7 }

/-- A successful `process_order` result with the one same-chain trade. -/
def prOneTrade : ProcessResult :=
  { success := true, trades := [tradeHedera], mutatedOrder := orderRec7
    order := some orderRec7 }

/-- A trade in the positional layout `register_order_cross` assumes:
bob bids with USDT from ethereum, alice asks HBAR from hedera. -/
def crossTradeFix : CrossTrade :=
  { quantity := 5
    party1 := ⟨"0xbob", "bid", 8, 0, "ethereum", "hedera", "0xbobrecv", "HBAR", "USDT"⟩
    party2 := ⟨"0xalice", "ask", 7, 0, "hedera", "ethereum", "0xalicerecv", "HBAR", "USDT"⟩ }

/-- 64 hex characters drawn as the first random token. -/
def randHexA : String :=
  "aaaaaaaaaaaaaaaaaaaaaaaaaaaaaaaaaaaaaaaaaaaaaaaaaaaaaaaaaaaaaaaa"

/-- A different 64-hex-character random token. -/
def randHexB : String :=
  "bbbbbbbbbbbbbbbbbbbbbbbbbbbbbbbbbbbbbbbbbbbbbbbbbbbbbbbbbbbbbbbb"

/-- A cross environment whose source-chain transaction is mined but
reverted (receipt status 0) while the destination transaction succeeds. -/
def cenvFailSrc : CrossEnv :=
  { randToken := fun _ => randHexA
    now := 1759959000
    receipt := fun s =>
      Except.ok (if s.isSourceChain then ⟨"0xsrctx", 1, 0, 21000⟩
                 else ⟨"0xdsttx", 2, 1, 21000⟩) }

/-- A cross environment where both transactions succeed. -/
def cenvOk : CrossEnv :=
  { cenvFailSrc with
    receipt := fun s =>
      Except.ok (if s.isSourceChain then ⟨"0xsrctx", 1, 1, 21000⟩ else ⟨"0xdsttx", 2, 1, 21000⟩) }

/-- `cenvOk` with a different random token drawn. -/
def cenvOkB : CrossEnv :=
  { cenvOk with randToken := fun _ => randHexB }

/-- `envRich` with the same-chain settlement call failing. -/
def envSameFail : ChainEnv :=
  { envRich with settleSame := fun _ => { success := false, error := some "preflight_revert" } }

/-- The order dictionary of order 7 carrying the one cross-chain trade. -/
def crossOrderDict : OrderDict :=
  { orderId := 7, account := "0xalice", price := 10, quantity := 5
    side := "ask", baseAsset := "HBAR", quoteAsset := "USDT"
    trades := [tradeCross], timestamp := 1759959000 }

/-- A resting ask: order 7, 5 HBAR at price 10. -/
def restingAsk : BookOrder := ⟨7, "0xalice", "ask", 10, 5, 1759958000⟩

/-- An incoming bid: order 8, 5 HBAR at limit price 12. -/
def incomingBid : BookOrder := ⟨8, "0xbob", "bid", 12, 5, 1759959000⟩

/-! ## Helper lemmas -/

theorem mapWithIdx_length (f : Nat → α → β) (i : Nat) (l : List α) :
    (mapWithIdx f i l).length = l.length := by
  induction l generalizing i with
  | nil => rfl
  | cons a as ih => simp [mapWithIdx, ih]

/-- In the same-chain branch past every pre-flight check, the orchestrator
issues exactly the one atomic same-chain submission (whatever the chain call
returns).  The same-chain base pre-flight re-issues the ask-side escrow
query, so its comparison coincides with the ask-side one. -/
theorem settleOneTrade_sameOk_submissions (nets : List (String × NetworkCfg))
    (legacy : List (String × String)) (env : ChainEnv)
    (base quote oid : String) (idx : Nat) (t : Trade)
    (r : Roles) (srcCfg destCfg : NetworkCfg)
    (hr : normalizeRoles t = some r)
    (hs : r.askFrom.bind (nets.lookup ·) = some srcCfg)
    (hd : r.bidFrom.bind (nets.lookup ·) = some destCfg)
    (hown : signerNotOwner env srcCfg.rpc = false)
    (hask : ¬(escrowAvailable env srcCfg.rpc r.askAddr (askBaseTokenOf nets legacy base r) <
        t.quantity))
    (hbid : ¬(escrowAvailable env destCfg.rpc r.bidAddr (destQuoteTokenOf nets legacy quote r) <
        t.quantity * t.price))
    (hchain : srcCfg.chainId = destCfg.chainId)
    (hquote : ¬(escrowAvailable env srcCfg.rpc r.bidAddr (srcQuoteTokenOf nets legacy quote r) <
        t.quantity * t.price)) :
    (settleOneTrade nets legacy env base quote oid idx t).submissions =
      [⟨.same, sameParamsOf nets legacy env base quote oid idx t r srcCfg destCfg⟩] := by
  simp only [settleOneTrade, hr, hs, hd, hown, Bool.false_eq_true, if_false]
  rw [if_neg hask, if_neg hbid, if_pos hchain, if_neg hask, if_neg hquote]

/-- A loop run that returns results produced one result per trade. -/
theorem settleLoop_ok_length (nets : List (String × NetworkCfg))
    (legacy : List (String × String)) (env : ChainEnv)
    (base quote oid : String) (i : Nat) (l : List Trade) (results : List TradeOut)
    (h : settleLoop nets legacy env base quote oid i l = Except.ok results) :
    results.length = l.length := by
  induction l generalizing i results with
  | nil =>
    simp only [settleLoop] at h
    cases h
    rfl
  | cons t ts ih =>
    simp only [settleLoop] at h
    split at h
    · cases h
    · split at h
      · cases h
      · next rest heq =>
        cases h
        simp [ih (i + 1) rest heq]

/-- A raised loop body makes `settle_trades_if_any` return the caught-error
dictionary. -/
theorem settleTradesIfAny_error (od : OrderDict)
    (nets : List (String × NetworkCfg)) (legacy : List (String × String))
    (env : ChainEnv) (msg : String)
    (hne : od.trades.isEmpty = false)
    (hsl : settleLoop nets legacy env od.baseAsset od.quoteAsset (toString od.orderId)
        0 od.trades = Except.error msg) :
    settleTradesIfAny od nets legacy env = { settled := false, error := some msg } := by
  simp only [settleTradesIfAny, hne, Bool.false_eq_true, if_false, hsl]

/-- A loop run without a raise makes `settle_trades_if_any` report settled
with the collected results. -/
theorem settleTradesIfAny_of_ok (od : OrderDict)
    (nets : List (String × NetworkCfg)) (legacy : List (String × String))
    (env : ChainEnv) (results : List TradeOut)
    (hne : od.trades.isEmpty = false)
    (hsl : settleLoop nets legacy env od.baseAsset od.quoteAsset (toString od.orderId)
        0 od.trades = Except.ok results) :
    settleTradesIfAny od nets legacy env =
      { settled := true, results := results, totalTrades := od.trades.length
        successfulSettlements := results.countP (fun r => r.result.success) } := by
  simp only [settleTradesIfAny, hne, Bool.false_eq_true, if_false, hsl]

/-- Past the cross-network, validation and process-failure gates,
`register_order` is its accepted-order tail. -/
theorem registerOrder_gates (payload : OrderData)
    (nets : List (String × NetworkCfg)) (legacy : List (String × String))
    (env : ChainEnv) (pr : ProcessResult) (timedOut : Bool)
    (hnet : payload.fromNetwork.pyLower = payload.toNetwork.pyLower)
    (hval : (validateOrderPrerequisites payload nets legacy env).valid = true)
    (hpr : pr.success = true) :
    registerOrder payload nets legacy env pr timedOut =
      registerOrderMain payload nets legacy env pr timedOut := by
  simp only [registerOrder]
  rw [if_neg (fun hc => hc.2.2 hnet), if_neg (by simp [hval]), if_neg (by simp [hpr])]

/-- Whichever branch the accepted-order tail takes, its settlement info is
the computed one. -/
theorem registerOrderMain_settlementInfo (payload : OrderData)
    (nets : List (String × NetworkCfg)) (legacy : List (String × String))
    (env : ChainEnv) (pr : ProcessResult) (timedOut : Bool) :
    (registerOrderMain payload nets legacy env pr timedOut).settlementInfo =
      regSettleInfo nets legacy env pr timedOut := by
  simp only [registerOrderMain]
  split <;> rfl

/-- When the same-chain settlement wrapper reports `settled`, it delegated:
it produced one result per trade and counted the successful ones. -/
theorem settleTradesIfAnySame_settled (od : OrderDict)
    (nets : List (String × NetworkCfg)) (legacy : List (String × String))
    (env : ChainEnv)
    (h : (settleTradesIfAnySame od nets legacy env).settled = true) :
    (settleTradesIfAnySame od nets legacy env).results.length = od.trades.length ∧
    (settleTradesIfAnySame od nets legacy env).successfulSettlements =
      (settleTradesIfAnySame od nets legacy env).results.countP
        (fun r => r.result.success) := by
  cases hod : od.trades with
  | nil => simp [settleTradesIfAnySame, hod] at h
  | cons t0 ts =>
    simp only [settleTradesIfAnySame, hod] at h ⊢
    split at h
    · simp at h
    · split at h
      · simp at h
      · next hc1 hc2 =>
        rw [if_neg hc1, if_neg hc2]
        have hne : od.trades.isEmpty = false := by rw [hod]; rfl
        cases hsl : settleLoop nets legacy env od.baseAsset od.quoteAsset
            (toString od.orderId) 0 od.trades with
        | error msg =>
          rw [settleTradesIfAny_error od nets legacy env msg hne hsl] at h
          simp at h
        | ok results =>
          rw [settleTradesIfAny_of_ok od nets legacy env results hne hsl]
          refine ⟨?_, rfl⟩
          rw [← hod]
          exact settleLoop_ok_length nets legacy env od.baseAsset od.quoteAsset
            (toString od.orderId) 0 od.trades results hsl

/-- A settled wrapper result whose success count covers every trade has only
successful per-trade results. -/
theorem settleTradesIfAnySame_allOk (od : OrderDict)
    (nets : List (String × NetworkCfg)) (legacy : List (String × String))
    (env : ChainEnv)
    (hset : (settleTradesIfAnySame od nets legacy env).settled = true)
    (hcount : (settleTradesIfAnySame od nets legacy env).successfulSettlements ≥
      od.trades.length) :
    ∀ r ∈ (settleTradesIfAnySame od nets legacy env).results,
      r.result.success = true := by
  obtain ⟨hlen, hc⟩ := settleTradesIfAnySame_settled od nets legacy env hset
  have hall : (settleTradesIfAnySame od nets legacy env).results.countP
      (fun r => r.result.success) =
      (settleTradesIfAnySame od nets legacy env).results.length :=
    le_antisymm (List.countP_le_length _) (by rw [hlen]; exact hc ▸ hcount)
  intro r hr
  exact List.countP_eq_length.mp hall r hr

end Neobanka

namespace Neobanka

/-! ## Claim theorems -/

/-- C9: the read operations of `SettlementClientSame` are total at their
public interface: `check_escrow_balance` returns a dictionary (an error
dictionary on a raised chain error, the normalized balances otherwise),
`get_user_nonce` returns 0 on a raised error and the chain's nonce
otherwise, and `get_token_decimals` returns 18 on a raised error and the
chain's decimals otherwise — no raised error propagates to the caller. -/
theorem clientReadOpsTotal (resp3 : Except String (Nat × Nat × Nat))
    (respN respD : Except String Nat) (decs : Nat) (user token : String) :
    (∀ msg, resp3 = .error msg →
      clientCheckEscrowBalance resp3 decs user token = .err msg) ∧
    (∀ t a l, resp3 = .ok (t, a, l) →
      clientCheckEscrowBalance resp3 decs user token =
        .ok (t / 10 ^ decs) (a / 10 ^ decs) (l / 10 ^ decs) t a l user token) ∧
    (∀ msg, respN = .error msg → clientGetUserNonce respN = 0) ∧
    (∀ n, respN = .ok n → clientGetUserNonce respN = n) ∧
    (∀ msg, respD = .error msg → clientGetTokenDecimals respD = 18) ∧
    (∀ d, respD = .ok d → clientGetTokenDecimals respD = d) := by
  refine ⟨?_, ?_, ?_, ?_, ?_, ?_⟩ <;> intros <;> subst_eqs <;> rfl

/-- Witness for C9 at concrete failing reads. -/
theorem clientReadOpsTotal_witness :
    clientCheckEscrowBalance (.error "rpc down") 6 "0xu" "0xt" = .err "rpc down" ∧
    clientGetUserNonce (.error "rpc down") = 0 ∧
    clientGetTokenDecimals (.error "rpc down") = 18 :=
  ⟨(clientReadOpsTotal (.error "rpc down") (.error "rpc down") (.error "rpc down")
      6 "0xu" "0xt").1 "rpc down" rfl,
   (clientReadOpsTotal (.error "rpc down") (.error "rpc down") (.error "rpc down")
      6 "0xu" "0xt").2.2.1 "rpc down" rfl,
   (clientReadOpsTotal (.error "rpc down") (.error "rpc down") (.error "rpc down")
      6 "0xu" "0xt").2.2.2.2.1 "rpc down" rfl⟩

/-- C8 counterexample: for a USDT-denominated order whose on-chain decimals
lookup fails on every attempt, the validator normalizes with 18 (the
client's internal fallback), not with the configured per-symbol default of
6 for USDT — the configured default map is never consulted because the
client lookup never raises. -/
theorem decimalsFallback_counterexample :
    defaultDecimalsMap "USDT" = 6 ∧
    envDecimalsDown.decimals "rpcH" tokAddrB 0 = .error "429 Too Many Requests" ∧
    envDecimalsDown.decimals "rpcH" tokAddrB 1 = .error "429 Too Many Requests" ∧
    envDecimalsDown.decimals "rpcH" tokAddrB 2 = .error "429 Too Many Requests" ∧
    ((validateOrderPrerequisites bidUsdtOrder testNets [] envDecimalsDown).checks.map
      (·.tokenDecimals)) = some 18 := by
  refine ⟨by decide, rfl, rfl, rfl, ?_⟩
  with_unfolding_all decide

/-- C8 (amended): the validator's token decimals value is the result of the
first client lookup attempt — the client itself never raises, so the retry
loop stops at attempt 0 and the per-symbol initial default is always
overwritten; when the underlying chain read fails the value used is the
client's fallback 18, for every symbol. -/
theorem decimalsLookup_amended (env : ChainEnv) (rpc token sym : String)
    (init : Nat) :
    validatorTokenDecimals env rpc token sym =
      clientGetTokenDecimals (env.decimals rpc token 0) ∧
    retryFirstOk init
      ((List.range 3).map
        (fun a => .ok (clientGetTokenDecimals (env.decimals rpc token a)))) =
      clientGetTokenDecimals (env.decimals rpc token 0) ∧
    (∀ msg, env.decimals rpc token 0 = .error msg →
      validatorTokenDecimals env rpc token sym = 18) := by
  refine ⟨rfl, rfl, fun msg h => ?_⟩
  have h1 : validatorTokenDecimals env rpc token sym =
      clientGetTokenDecimals (env.decimals rpc token 0) := rfl
  rw [h1, h]
  rfl

/-- Witness for C8's amended claim at a concrete failing environment. -/
theorem decimalsLookup_amended_witness :
    validatorTokenDecimals envDecimalsDown "rpcH" tokAddrB "USDT" = 18 :=
  (decimalsLookup_amended envDecimalsDown "rpcH" tokAddrB "USDT" 6).2.2
    "429 Too Many Requests" rfl

/-- C7: for every incoming order, the pre-trade escrow validator computes the
required amount (quantity of base for an ask, quantity times price of quote
for a bid, both encoded in `validatorRequired`/`validatorToken` against the
order's from-network), and when the available escrow is below it the order
is rejected carrying the required and available amounts and the order book
is never touched (no `process_order`, no activity records). -/
theorem pretradeEscrowAdmission (od : OrderData)
    (nets : List (String × NetworkCfg)) (legacy : List (String × String))
    (env : ChainEnv) (pr : ProcessResult) (timedOut : Bool)
    (hnet : od.fromNetwork.pyLower = od.toNetwork.pyLower)
    (htok : (validatorToken od nets legacy).pyStartsWith "0x" ∧
            (validatorToken od nets legacy).length = 42)
    (hlow : validatorAvailable od nets legacy env < validatorRequired od) :
    (validateOrderPrerequisites od nets legacy env).valid = false ∧
    (validateOrderPrerequisites od nets legacy env).errors =
      [.insufficientEscrow (validatorRequired od) (validatorAvailable od nets legacy env)] ∧
    ((validateOrderPrerequisites od nets legacy env).checks.map
      (·.requiredAmount)) = some (validatorRequired od) ∧
    ((validateOrderPrerequisites od nets legacy env).checks.map
      (·.availableEscrow)) = some (validatorAvailable od nets legacy env) ∧
    (registerOrder od nets legacy env pr timedOut).bookTouched = false ∧
    (registerOrder od nets legacy env pr timedOut).activity = [] ∧
    (registerOrder od nets legacy env pr timedOut).response.statusCode = 0 ∧
    (registerOrder od nets legacy env pr timedOut).response.httpStatus = 400 := by
  have hlow' : (validatorBalance od nets legacy env).availableOr 0 < validatorRequired od := hlow
  have hv : validateOrderPrerequisites od nets legacy env =
      { valid := false
        errors := [.insufficientEscrow (validatorRequired od)
          (validatorAvailable od nets legacy env)]
        checks := some
          { account := od.account, side := od.side
            token := validatorToken od nets legacy
            requiredAmount := validatorRequired od
            availableEscrow := validatorAvailable od nets legacy env
            totalEscrow := (validatorBalance od nets legacy env).totalOr 0
            lockedEscrow := (validatorBalance od nets legacy env).lockedOr 0
            networkKey := od.fromNetwork.pyLower
            rpc := (validatorNetCfg od nets).rpc
            contractAddress := (validatorNetCfg od nets).contractAddress
            tokenDecimals := validatorDecimals od nets legacy env } } := by
    simp only [validateOrderPrerequisites]
    rw [if_neg (not_not_intro htok), if_pos hlow']
    rfl
  have hreg : (registerOrder od nets legacy env pr timedOut) =
      { response := ⟨400, 0, "Order validation failed"⟩
        bookTouched := false, cancelled := none, activity := []
        settlementInfo := { settled := false } } := by
    simp only [registerOrder, hv]
    rw [if_neg (fun hcontra => hcontra.2.2 hnet)]
    simp
  refine ⟨?_, ?_, ?_, ?_, ?_, ?_, ?_, ?_⟩ <;> simp [hv, hreg]

/-- Witness for C7: an ask for 5 HBAR with only 1 HBAR of available escrow
is rejected and the book is never touched. -/
theorem pretradeEscrowAdmission_witness :
    (validateOrderPrerequisites askHbarOrder testNets [] envPoor).valid = false ∧
    (registerOrder askHbarOrder testNets [] envPoor prNoTrades false).bookTouched = false ∧
    (registerOrder askHbarOrder testNets [] envPoor prNoTrades false).activity = [] := by
  have h := pretradeEscrowAdmission askHbarOrder testNets [] envPoor prNoTrades false
    (by decide) (by decide) (by with_unfolding_all decide)
  exact ⟨h.1, h.2.2.2.2.1, h.2.2.2.2.2.1⟩

/-- C10: every escrow sufficiency query the settlement orchestrator issues
passes `token_decimals = 18` regardless of the token, so the available
amount it compares is the raw balance divided by `10 ^ 18`; for a token with
6 decimals this differs from the token's human-unit balance (raw divided by
`10 ^ 6`), shown at a raw balance of 5000000 (5 USDT). -/
theorem settlementEscrowNormalization (nets : List (String × NetworkCfg))
    (legacy : List (String × String)) (env : ChainEnv)
    (base quote oid : String) (idx : Nat) (t : Trade) (user token : String) :
    (∀ q ∈ (settleOneTrade nets legacy env base quote oid idx t).queries,
      q.decimalsUsed = 18) ∧
    (∀ tt aa ll, (clientCheckEscrowBalance (.ok (tt, aa, ll)) 18 user token).availableOr 0 =
      (aa : ℚ) / 10 ^ 18) ∧
    (clientCheckEscrowBalance (.ok (5000000, 5000000, 0)) 18 "0xu" "0xt").availableOr 0 ≠
      (5000000 : ℚ) / 10 ^ 6 := by
  refine ⟨?_, fun _ _ _ => rfl, by with_unfolding_all decide⟩
  intro q hq
  simp only [settleOneTrade] at hq
  repeat' split at hq
  all_goals simp only [List.mem_cons, List.not_mem_nil, or_false] at hq
  all_goals (repeat' rcases hq with rfl | hq)
  all_goals rfl

/-- Witness for C10: the ask-side escrow query of a concrete same-chain
trade carries decimals 18. -/
theorem settlementEscrowNormalization_witness :
    (⟨"ask_base", "rpcH", "0xalice", tokAddrA, 18⟩ : EscrowQuery).decimalsUsed = 18 :=
  (settlementEscrowNormalization testNets [] envRich "HBAR" "USDT" "7" 0
      tradeHedera "0xu" "0xt").1
    ⟨"ask_base", "rpcH", "0xalice", tokAddrA, 18⟩
    (by with_unfolding_all decide)

/-- C4: for every trade that reaches the orchestrator's pre-flight escrow
checks (valid sides, both networks configured, signer accepted), an ask-side
base escrow below `trade.quantity` yields a failed result carrying
`insufficient_ask_base_escrow` with the required and available amounts and
no settlement submission; with the ask side sufficient, a bid-side quote
escrow below `trade.quantity * trade.price` yields
`insufficient_bid_quote_escrow` with the amounts and no submission. -/
theorem preSettlementEscrowGuard (nets : List (String × NetworkCfg))
    (legacy : List (String × String)) (env : ChainEnv)
    (base quote oid : String) (idx : Nat) (t : Trade)
    (r : Roles) (srcCfg destCfg : NetworkCfg)
    (hr : normalizeRoles t = some r)
    (hs : r.askFrom.bind (nets.lookup ·) = some srcCfg)
    (hd : r.bidFrom.bind (nets.lookup ·) = some destCfg)
    (hown : signerNotOwner env srcCfg.rpc = false) :
    (escrowAvailable env srcCfg.rpc r.askAddr (askBaseTokenOf nets legacy base r) <
        t.quantity →
      settleOneTrade nets legacy env base quote oid idx t =
        ⟨{ success := false, error := some "insufficient_ask_base_escrow"
           requiredAvailable := some (t.quantity,
             escrowAvailable env srcCfg.rpc r.askAddr (askBaseTokenOf nets legacy base r)) },
         [],
         [⟨"ask_base", srcCfg.rpc, r.askAddr, askBaseTokenOf nets legacy base r, 18⟩],
         none⟩) ∧
    (¬(escrowAvailable env srcCfg.rpc r.askAddr (askBaseTokenOf nets legacy base r) <
        t.quantity) →
      escrowAvailable env destCfg.rpc r.bidAddr (destQuoteTokenOf nets legacy quote r) <
        t.quantity * t.price →
      settleOneTrade nets legacy env base quote oid idx t =
        ⟨{ success := false, error := some "insufficient_bid_quote_escrow"
           requiredAvailable := some (t.quantity * t.price,
             escrowAvailable env destCfg.rpc r.bidAddr (destQuoteTokenOf nets legacy quote r)) },
         [],
         [⟨"ask_base", srcCfg.rpc, r.askAddr, askBaseTokenOf nets legacy base r, 18⟩,
          ⟨"bid_quote", destCfg.rpc, r.bidAddr, destQuoteTokenOf nets legacy quote r, 18⟩],
         none⟩) := by
  constructor
  · intro h1
    simp only [settleOneTrade, hr, hs, hd, hown, Bool.false_eq_true, if_false]
    rw [if_pos h1]
  · intro h1 h2
    simp only [settleOneTrade, hr, hs, hd, hown, Bool.false_eq_true, if_false]
    rw [if_neg h1, if_pos h2]

/-- Witness for C4: a concrete same-chain trade with only 1 HBAR of ask-side
escrow fails with `insufficient_ask_base_escrow` and issues no settlement
submission. -/
theorem preSettlementEscrowGuard_witness :
    (settleOneTrade testNets [] envPoor "HBAR" "USDT" "7" 0 tradeHedera).result.error =
      some "insufficient_ask_base_escrow" ∧
    (settleOneTrade testNets [] envPoor "HBAR" "USDT" "7" 0 tradeHedera).submissions = [] := by
  have h := (preSettlementEscrowGuard testNets [] envPoor "HBAR" "USDT" "7" 0 tradeHedera
      rolesHedera hederaCfg hederaCfg (by decide) (by decide) (by decide) (by decide)).1
      (by with_unfolding_all decide)
  rw [h]
  exact ⟨rfl, rfl⟩

/-- C2 (code bug): on the settlement-orchestrator path
(`settle_trades_if_any`) a cross-chain trade that passes every pre-flight
check never reaches a source-chain settlement call: both clients are
constructed as `SettlementClientSame`, which has no
`settle_cross_chain_trade` method, so the loop body raises an
`AttributeError`, the enclosing try/except returns
`{"settled": False, "error": str(e)}`, and no submission is issued — the
claimed source-first ordering and the `source_failed` skip live in dead
code.  On the `register_order_cross` path the destination settlement is
additionally submitted even when the source transaction's mined receipt
reports failure (status 0): both submissions go out, in order, with no
skip. -/
theorem crossChainSettleAttributeError :
    settleTradesIfAny crossOrderDict testNets [] envRich =
      { settled := false, error := some attrErrMsg } ∧
    (settleOneTrade testNets [] envRich "HBAR" "USDT" "7" 0 tradeCross).submissions = [] ∧
    (settleOneTrade testNets [] envRich "HBAR" "USDT" "7" 0 tradeCross).raised =
      some attrErrMsg ∧
    ((crossSettleTrade testNets cenvFailSrc 12 0 crossTradeFix).1.map
      CrossSub.isSourceChain) = [true, false] ∧
    ((crossSettleTrade testNets cenvFailSrc 12 0 crossTradeFix).2.toOption.map
      (fun p => (p.1.status, p.2.status))) = some (0, 1) := by
  refine ⟨?_, ?_, ?_, ?_, ?_⟩ <;> with_unfolding_all decide

/-- C3 (amended): on the settlement-orchestrator path every settlement
submission carries the deterministic id
`sha256(f"{base_order_id}:{timestamp}:{idx}")[:32]`, which depends only on
the base order id, the trade timestamp and the trade index (in particular it
is identical across runs against different chain environments), and the ids
of two trades differing only in their index differ, shown at index 0 vs 1.
(On the `register_order_cross` path the id is freshly random — see the
counterexample.) -/
theorem settlementIdDeterministic (nets : List (String × NetworkCfg))
    (legacy : List (String × String)) (base quote oid : String) (idx : Nat)
    (t : Trade) :
    (∀ env : ChainEnv, ∀ sub ∈ (settleOneTrade nets legacy env base quote oid idx t).submissions,
      sub.params.orderId = settlementOrderId oid t.timestamp idx) ∧
    (∀ env₁ env₂ : ChainEnv, ∀ sub₁ ∈ (settleOneTrade nets legacy env₁ base quote oid idx t).submissions,
      ∀ sub₂ ∈ (settleOneTrade nets legacy env₂ base quote oid idx t).submissions,
      sub₁.params.orderId = sub₂.params.orderId) ∧
    settlementOrderId "12" 1759959000 0 ≠ settlementOrderId "12" 1759959000 1 := by
  have main : ∀ env : ChainEnv,
      ∀ sub ∈ (settleOneTrade nets legacy env base quote oid idx t).submissions,
      sub.params.orderId = settlementOrderId oid t.timestamp idx := by
    intro env sub hsub
    simp only [settleOneTrade] at hsub
    repeat' split at hsub
    all_goals simp only [List.mem_cons, List.not_mem_nil, or_false] at hsub
    all_goals (repeat' rcases hsub with rfl | hsub)
    all_goals rfl
  refine ⟨main, fun env₁ env₂ sub₁ h₁ sub₂ h₂ => ?_, by decide⟩
  rw [main env₁ sub₁ h₁, main env₂ sub₂ h₂]

/-- Witness for C3's amended claim: the atomic submission of a concrete
same-chain trade carries the sha256-derived id for order 7, its timestamp,
index 0. -/
theorem settlementIdDeterministic_witness :
    (⟨.same,
      sameParamsOf testNets [] envRich "HBAR" "USDT" "7" 0 tradeHedera
        rolesHedera hederaCfg hederaCfg⟩ : Submission).params.orderId =
      settlementOrderId "7" 1759959000 0 :=
  (settlementIdDeterministic testNets [] "HBAR" "USDT" "7" 0 tradeHedera).1 envRich
    ⟨.same,
      sameParamsOf testNets [] envRich "HBAR" "USDT" "7" 0 tradeHedera
        rolesHedera hederaCfg hederaCfg⟩
    (by
      rw [settleOneTrade_sameOk_submissions testNets [] envRich "HBAR" "USDT" "7" 0
        tradeHedera rolesHedera hederaCfg hederaCfg (by decide) (by decide) (by decide)
        (by decide) (by with_unfolding_all decide) (by with_unfolding_all decide)
        (by decide) (by with_unfolding_all decide)]
      exact List.mem_cons_self _ _)

/-- C3 counterexample: on the `register_order_cross` path two runs identical
in base order id, trade timestamp and trade index but with different random
draws submit different settlement ids — the id is `secrets.token_hex(32)`,
not a deterministic hash of those inputs. -/
theorem settlementIdDeterministic_counterexample :
    ((crossSettleTrade testNets cenvOk 12 0 crossTradeFix).1.map
      (fun s => s.tradeData.orderId)) =
      ["0x" ++ randHexA, "0x" ++ randHexA] ∧
    ((crossSettleTrade testNets cenvOkB 12 0 crossTradeFix).1.map
      (fun s => s.tradeData.orderId)) =
      ["0x" ++ randHexB, "0x" ++ randHexB] ∧
    "0x" ++ randHexA ≠ "0x" ++ randHexB := by
  refine ⟨?_, ?_, by decide⟩ <;> with_unfolding_all decide

/-- C5 (amended): every trade produced by the (spec-modelled) matching
engine executes at the resting (maker) order's price — the trade's maker is
one of the opposing resting orders and the trade price is that order's
price — and on the settlement-orchestrator path every on-chain submission
carries the trade's price.  (On the `register_order_cross` path the
submission carries the request body's price instead — see the
counterexample.) -/
theorem makerPriceExecution :
    (∀ (inc : BookOrder) (opp : List BookOrder), ∀ tr ∈ (matchLoop inc opp).1,
      ∃ r ∈ opp, tr.makerOrderId = r.orderId ∧ tr.price = r.price) ∧
    (∀ (nets : List (String × NetworkCfg)) (legacy : List (String × String))
      (env : ChainEnv) (base quote oid : String) (idx : Nat) (t : Trade),
      ∀ sub ∈ (settleOneTrade nets legacy env base quote oid idx t).submissions,
      sub.params.price = t.price) := by
  constructor
  · intro inc opp
    induction opp generalizing inc with
    | nil => intro tr htr; simp [matchLoop] at htr
    | cons r rest ih =>
      intro tr htr
      simp only [matchLoop] at htr
      split at htr
      · split at htr
        · simp only [List.mem_singleton] at htr
          exact ⟨r, List.mem_cons_self r rest, by rw [htr], by rw [htr]⟩
        · split at htr
          · simp only [List.mem_singleton] at htr
            exact ⟨r, List.mem_cons_self r rest, by rw [htr], by rw [htr]⟩
          · simp only [List.mem_cons] at htr
            rcases htr with rfl | h
            · exact ⟨r, List.mem_cons_self r rest, rfl, rfl⟩
            · obtain ⟨r', hr', h1, h2⟩ := ih _ _ h
              exact ⟨r', List.mem_cons_of_mem r hr', h1, h2⟩
      · simp at htr
  · intro nets legacy env base quote oid idx t sub hsub
    simp only [settleOneTrade] at hsub
    repeat' split at hsub
    all_goals simp only [List.mem_cons, List.not_mem_nil, or_false] at hsub
    all_goals (repeat' rcases hsub with rfl | hsub)
    all_goals rfl

/-- Witness for C5's amended claim: the atomic submission of a concrete
same-chain trade carries that trade's price. -/
theorem makerPriceExecution_witness :
    (⟨.same,
      sameParamsOf testNets [] envRich "HBAR" "USDT" "7" 0 tradeHedera
        rolesHedera hederaCfg hederaCfg⟩ : Submission).params.price =
      tradeHedera.price :=
  makerPriceExecution.2 testNets [] envRich "HBAR" "USDT" "7" 0 tradeHedera
    ⟨.same,
      sameParamsOf testNets [] envRich "HBAR" "USDT" "7" 0 tradeHedera
        rolesHedera hederaCfg hederaCfg⟩
    (by
      rw [settleOneTrade_sameOk_submissions testNets [] envRich "HBAR" "USDT" "7" 0
        tradeHedera rolesHedera hederaCfg hederaCfg (by decide) (by decide) (by decide)
        (by decide) (by with_unfolding_all decide) (by with_unfolding_all decide)
        (by decide) (by with_unfolding_all decide)]
      exact List.mem_cons_self _ _)

/-- C5 counterexample: the spec-modelled engine prices the trade at the
maker's 10, but the `register_order_cross` settlement submits the request
body's price 12 (scaled to wei) — the on-chain price is the taker's, not
the execution price. -/
theorem makerPriceExecution_counterexample :
    ((matchLoop incomingBid [restingAsk]).1.map SpecTrade.price) = [10] ∧
    ((crossSettleTrade testNets cenvOk 12 0 crossTradeFix).1.map
      (fun s => s.tradeData.price)) = [12 * 10 ^ 18, 12 * 10 ^ 18] ∧
    (12 * 10 ^ 18 : ℤ) ≠ pyInt ((10 : ℚ) * 10 ^ 18) := by
  refine ⟨?_, ?_, ?_⟩ <;> with_unfolding_all decide

/-- C6: when synchronous settlement of an accepted order with trades times
out, the settlement info reports unsettled with reason "timeout", the
just-placed order is rolled back via `cancel_order`, and the request reports
failure; no trade is recorded as executed. -/
theorem timeoutRollback (payload : OrderData)
    (nets : List (String × NetworkCfg)) (legacy : List (String × String))
    (env : ChainEnv) (pr : ProcessResult)
    (hnet : payload.fromNetwork.pyLower = payload.toNetwork.pyLower)
    (hval : (validateOrderPrerequisites payload nets legacy env).valid = true)
    (hpr : pr.success = true)
    (htr : pr.trades ≠ [])
    (hord : (effectiveOrder pr).orderId ≠ 0) :
    (registerOrder payload nets legacy env pr true).settlementInfo =
      { settled := false, reason := some "timeout" } ∧
    (registerOrder payload nets legacy env pr true).cancelled =
      some ((effectiveOrder pr).side, (effectiveOrder pr).orderId) ∧
    (registerOrder payload nets legacy env pr true).response.httpStatus = 400 ∧
    (registerOrder payload nets legacy env pr true).response.statusCode = 0 ∧
    (registerOrder payload nets legacy env pr true).activity.filter
      ActivityRec.isTradeExecuted = [] := by
  obtain ⟨t0, ts, htrades⟩ := List.exists_cons_of_ne_nil htr
  have hempty : pr.trades.isEmpty = false := by simp [htrades]
  have hsi : regSettleInfo nets legacy env pr true =
      { settled := false, reason := some "timeout" } := by
    simp [regSettleInfo, hempty]
  have hgate := registerOrder_gates payload nets legacy env pr true hnet hval hpr
  have hout : registerOrderMain payload nets legacy env pr true =
      { response := ⟨400, 0, "On-chain settlement failed; order not accepted"⟩
        bookTouched := true
        cancelled := some ((effectiveOrder pr).side, (effectiveOrder pr).orderId)
        activity := [placedRecord payload pr]
        settlementInfo := { settled := false, reason := some "timeout" } } := by
    simp only [registerOrderMain, hsi]
    rw [if_pos ⟨by simp [hempty], by simp⟩, if_pos hord]
  rw [hgate, hout]
  exact ⟨rfl, rfl, rfl, rfl, rfl⟩

/-- Witness for C6: a concrete accepted order with one trade whose
settlement timed out is rolled back (cancel of ask order 7) and reported
failed. -/
theorem timeoutRollback_witness :
    (registerOrder askHbarOrder testNets [] envRich prOneTrade true).settlementInfo =
      { settled := false, reason := some "timeout" } ∧
    (registerOrder askHbarOrder testNets [] envRich prOneTrade true).cancelled =
      some ("ask", 7) ∧
    (registerOrder askHbarOrder testNets [] envRich prOneTrade true).response.statusCode = 0 := by
  have h := timeoutRollback askHbarOrder testNets [] envRich prOneTrade
    (by decide) (by with_unfolding_all decide) rfl (by decide) (by decide)
  exact ⟨h.1, h.2.1, h.2.2.2.1⟩

/-- C1: for an accepted order whose matching produced trades (settlement not
timing out), if any trade's settlement result is unsuccessful then the
just-placed order is cancelled out of the book, the request reports failure,
and no `trade_executed` record is appended; and whenever any
`trade_executed` record is appended, every trade's settlement result was
successful. -/
theorem settlementFailureRollback (payload : OrderData)
    (nets : List (String × NetworkCfg)) (legacy : List (String × String))
    (env : ChainEnv) (pr : ProcessResult)
    (hnet : payload.fromNetwork.pyLower = payload.toNetwork.pyLower)
    (hval : (validateOrderPrerequisites payload nets legacy env).valid = true)
    (hpr : pr.success = true)
    (htr : pr.trades ≠ [])
    (hord : (effectiveOrder pr).orderId ≠ 0) :
    ((∃ r ∈ (registerOrder payload nets legacy env pr false).settlementInfo.results,
        r.result.success = false) →
      (registerOrder payload nets legacy env pr false).cancelled =
        some ((effectiveOrder pr).side, (effectiveOrder pr).orderId) ∧
      (registerOrder payload nets legacy env pr false).response.httpStatus = 400 ∧
      (registerOrder payload nets legacy env pr false).response.statusCode = 0 ∧
      (registerOrder payload nets legacy env pr false).activity.filter
        ActivityRec.isTradeExecuted = []) ∧
    ((registerOrder payload nets legacy env pr false).activity.filter
        ActivityRec.isTradeExecuted ≠ [] →
      ∀ r ∈ (registerOrder payload nets legacy env pr false).settlementInfo.results,
        r.result.success = true) := by
  obtain ⟨t0, ts, htrades⟩ := List.exists_cons_of_ne_nil htr
  have hempty : pr.trades.isEmpty = false := by simp [htrades]
  have hgate := registerOrder_gates payload nets legacy env pr false hnet hval hpr
  have hsi : regSettleInfo nets legacy env pr false =
      settleTradesIfAnySame (regOrderDict pr) nets legacy env := by
    simp [regSettleInfo, hempty]
  have houtsi := registerOrderMain_settlementInfo payload nets legacy env pr false
  rw [hgate]
  rw [houtsi, hsi]
  constructor
  · rintro ⟨r, hrmem, hrfail⟩
    have hnotok : ¬((settleTradesIfAnySame (regOrderDict pr) nets legacy env).settled ∧
        (settleTradesIfAnySame (regOrderDict pr) nets legacy env).successfulSettlements ≥
          pr.trades.length) := by
      rintro ⟨hset, hcount⟩
      have hall := settleTradesIfAnySame_allOk (regOrderDict pr) nets legacy env hset
        (by simpa [regOrderDict] using hcount)
      rw [hall r hrmem] at hrfail
      exact Bool.true_eq_false.mp hrfail
    have hout : registerOrderMain payload nets legacy env pr false =
        { response := ⟨400, 0, "On-chain settlement failed; order not accepted"⟩
          bookTouched := true
          cancelled := some ((effectiveOrder pr).side, (effectiveOrder pr).orderId)
          activity := [placedRecord payload pr]
          settlementInfo := settleTradesIfAnySame (regOrderDict pr) nets legacy env } := by
      simp only [registerOrderMain, hsi]
      rw [if_pos ⟨by simp [hempty], hnotok⟩, if_pos hord]
    rw [hout]
    refine ⟨rfl, rfl, rfl, ?_⟩
    simp [placedRecord, ActivityRec.isTradeExecuted]
  · intro hexec
    by_cases hc : ¬pr.trades.isEmpty ∧
        ¬((settleTradesIfAnySame (regOrderDict pr) nets legacy env).settled ∧
          (settleTradesIfAnySame (regOrderDict pr) nets legacy env).successfulSettlements ≥
            pr.trades.length)
    · exfalso
      apply hexec
      have hout : registerOrderMain payload nets legacy env pr false =
          { response := ⟨400, 0, "On-chain settlement failed; order not accepted"⟩
            bookTouched := true
            cancelled := if (effectiveOrder pr).orderId ≠ 0 then
                some ((effectiveOrder pr).side, (effectiveOrder pr).orderId) else none
            activity := [placedRecord payload pr]
            settlementInfo := settleTradesIfAnySame (regOrderDict pr) nets legacy env } := by
        simp only [registerOrderMain, hsi]
        rw [if_pos hc]
      rw [hout]
      simp [placedRecord, ActivityRec.isTradeExecuted]
    · have hok : (settleTradesIfAnySame (regOrderDict pr) nets legacy env).settled ∧
          (settleTradesIfAnySame (regOrderDict pr) nets legacy env).successfulSettlements ≥
            pr.trades.length := by
        rcases not_and_or.mp hc with h1 | h2
        · exact absurd (by simp [hempty]) h1
        · exact not_not.mp h2
      exact settleTradesIfAnySame_allOk (regOrderDict pr) nets legacy env hok.1
        (by simpa [regOrderDict] using hok.2)

/-- Witness for C1: a concrete accepted order with one trade whose
same-chain settlement call fails is cancelled (ask order 7), reported
failed, and appends no `trade_executed` record. -/
theorem settlementFailureRollback_witness :
    (registerOrder askHbarOrder testNets [] envSameFail prOneTrade false).cancelled =
      some ("ask", 7) ∧
    (registerOrder askHbarOrder testNets [] envSameFail prOneTrade false).response.statusCode = 0 ∧
    (registerOrder askHbarOrder testNets [] envSameFail prOneTrade false).activity.filter
      ActivityRec.isTradeExecuted = [] := by
  have h := (settlementFailureRollback askHbarOrder testNets [] envSameFail prOneTrade
      (by decide) (by with_unfolding_all decide) rfl (by decide) (by decide)).1
      (by with_unfolding_all decide)
  exact ⟨h.1, h.2.2.1, h.2.2.2⟩

end Neobanka

/-- SHA-256 sanity check against the FIPS 180 test vector for "abc". -/
theorem sha256_abc :
    Neobanka.sha256Hex (Neobanka.strBytes "abc") =
      "ba7816bf8f01cfea414140de5dae2223b00361a396177a9cb410ff61f20015ad" := by
  decide
